import Mathlib

/-!
Verification of the stock-valuator valuation and scoring engine.

The TypeScript source is shallowly embedded over the rational numbers:
JavaScript number arithmetic is modelled by exact arithmetic on the
rationals, a thrown Error is modelled by Except String, and a NaN that
arises from a zero-by-zero division is modelled by an Option that is
none.  Math.sqrt and fractional Math.pow (irrational float primitives)
are passed as explicit function parameters to the fundamental-analysis
module; no proved property depends on their values beyond what is used
at the concrete inputs.  Integer loop counters and calendar years are
modelled by natural numbers and integers.
-/

namespace StockValuator

/-- Decidable equality of Except values, for evaluating the embedded
fallible computations at concrete inputs. -/
instance {ε α : Type} [DecidableEq ε] [DecidableEq α] : DecidableEq (Except ε α) :=
  fun a b =>
    match a, b with
    | .error e, .error f => decidable_of_iff (e = f) (by simp)
    | .error _, .ok _ => isFalse (by simp)
    | .ok _, .error _ => isFalse (by simp)
    | .ok a, .ok b => decidable_of_iff (a = b) (by simp)

/-! ### Constants (src/lib/utils/constants.ts) -/

def MARKET_RETURN : ℚ := 10/100

def DEFAULT_RISK_FREE_RATE : ℚ := 45/1000

def TERMINAL_GROWTH_RATE : ℚ := 25/1000

def DCF_PROJECTION_YEARS : ℕ := 20

def DCF_PHASE1_YEARS : ℕ := 5

def DCF_PHASE2_YEARS : ℕ := 10

def DCF_PHASE3_YEARS : ℕ := 5

def MARGIN_OF_SAFETY_BUY : ℚ := 25/100

def PREMIUM_THRESHOLD_AVOID : ℚ := 20/100

/-! ### Data model (src/types) -/

/-- DCFInputs of src/types: all fields are required in the TypeScript
interface (no optional markers), so the destructuring defaults in
calculateDCF never fire; projectionYears is an integral year count. -/
structure DCFInputs where
  startingFCF : ℚ
  sharesOutstanding : ℚ
  totalDebt : ℚ
  cash : ℚ
  beta : ℚ
  riskFreeRate : ℚ
  marketReturn : ℚ
  analystGrowthRate : ℚ
  terminalGrowthRate : ℚ
  projectionYears : ℕ
deriving DecidableEq, Repr

structure DCFProjection where
  year : ℕ
  fcf : ℚ
  growthRate : ℚ
  discountFactor : ℚ
  presentValue : ℚ
deriving DecidableEq, Repr

structure DCFResult where
  projections : List DCFProjection
  wacc : ℚ
  terminalValue : ℚ
  terminalValuePV : ℚ
  enterpriseValue : ℚ
  equityValue : ℚ
  intrinsicPrice : ℚ
  currentPrice : ℚ
  upside : ℚ
  marginOfSafety : ℚ
deriving DecidableEq, Repr

/-! ### DCF engine (src/lib/valuation/dcf.ts) -/

/-- calculateWACC: CAPM with beta clamped to the interval from 0.5 to 3
and the result clamped to the interval from 0.05 to 0.20. -/
def calculateWACC (beta riskFreeRate marketReturn : ℚ) : ℚ :=
  let adjustedBeta := max (1/2) (min beta 3)
  let marketRiskPremium := marketReturn - riskFreeRate
  let wacc := riskFreeRate + adjustedBeta * marketRiskPremium
  max (5/100) (min wacc (20/100))

/-- calculateGrowthRate: three-phase growth schedule.  Phase 1
(years 1..5) uses the analyst rate, phase 3 (years 16..20) the terminal
rate, phase 2 (years 6..15) linearly decays from the analyst rate to the
terminal rate, floored at the terminal rate. -/
def calculateGrowthRate (year : ℕ) (analystGrowthRate terminalGrowthRate : ℚ) : ℚ :=
  if year ≤ DCF_PHASE1_YEARS then analystGrowthRate
  else if year > DCF_PHASE1_YEARS + DCF_PHASE2_YEARS then terminalGrowthRate
  else
    let decayYear : ℚ := (year : ℚ) - (DCF_PHASE1_YEARS : ℚ)
    let totalDecayYears : ℚ := (DCF_PHASE2_YEARS : ℚ)
    let decayProgress := decayYear / totalDecayYears
    let decayedRate :=
      analystGrowthRate - (analystGrowthRate - terminalGrowthRate) * decayProgress
    max decayedRate terminalGrowthRate

/-- A row of the intermediate array built by projectFCF. -/
structure FCFRow where
  year : ℕ
  fcf : ℚ
  growthRate : ℚ
deriving DecidableEq, Repr

/-- The loop body of projectFCF: n remaining years, current year index,
and the previous FCF accumulator. -/
def projectFCFGo (analystGrowthRate terminalGrowthRate : ℚ) :
    ℕ → ℕ → ℚ → List FCFRow
  | 0, _, _ => []
  | n + 1, year, previousFCF =>
    let growthRate := calculateGrowthRate year analystGrowthRate terminalGrowthRate
    let fcf := previousFCF * (1 + growthRate)
    ⟨year, fcf, growthRate⟩ ::
      projectFCFGo analystGrowthRate terminalGrowthRate n (year + 1) fcf

/-- projectFCF: project free cash flow for years 1..years with the
three-phase growth schedule. -/
def projectFCF (startingFCF analystGrowthRate terminalGrowthRate : ℚ)
    (years : ℕ) : List FCFRow :=
  projectFCFGo analystGrowthRate terminalGrowthRate years 1 startingFCF

/-- calculateTerminalValue: Gordon growth model; throws when the
discount rate does not exceed the terminal growth rate. -/
def calculateTerminalValue (finalFCF terminalGrowthRate discountRate : ℚ) :
    Except String ℚ :=
  if discountRate ≤ terminalGrowthRate then
    .error "Discount rate must be greater than terminal growth rate"
  else
    .ok ((finalFCF * (1 + terminalGrowthRate)) / (discountRate - terminalGrowthRate))

/-- calculateDiscountFactor: 1 / (1 + r) ^ year. -/
def calculateDiscountFactor (year : ℕ) (discountRate : ℚ) : ℚ :=
  1 / (1 + discountRate) ^ year

/-- calculatePresentValue: future value times the discount factor. -/
def calculatePresentValue (futureValue : ℚ) (year : ℕ) (discountRate : ℚ) : ℚ :=
  futureValue * calculateDiscountFactor year discountRate

/-- calculateDCF: the complete forward DCF valuation.  The source reads
the last projection row unguardedly; with the documented invariant
projectionYears = 20 the list is never empty, and the embedding supplies
a zero row as the out-of-range default. -/
def calculateDCF (inputs : DCFInputs) (currentPrice : ℚ) :
    Except String DCFResult := do
  let wacc := calculateWACC inputs.beta inputs.riskFreeRate inputs.marketReturn
  let fcfProjections := projectFCF inputs.startingFCF inputs.analystGrowthRate
    inputs.terminalGrowthRate inputs.projectionYears
  let projections : List DCFProjection := fcfProjections.map (fun proj =>
    let discountFactor := calculateDiscountFactor proj.year wacc
    let presentValue := proj.fcf * discountFactor
    ⟨proj.year, proj.fcf, proj.growthRate, discountFactor, presentValue⟩)
  let pvOfCashFlows := projections.foldl (fun sum p => sum + p.presentValue) 0
  let finalFCF := (projections.getD (projections.length - 1) ⟨0, 0, 0, 0, 0⟩).fcf
  let terminalValue ← calculateTerminalValue finalFCF inputs.terminalGrowthRate wacc
  let terminalValuePV := calculatePresentValue terminalValue inputs.projectionYears wacc
  let enterpriseValue := pvOfCashFlows + terminalValuePV
  let equityValue := enterpriseValue - inputs.totalDebt + inputs.cash
  let intrinsicPrice := equityValue / inputs.sharesOutstanding
  let upside := (intrinsicPrice - currentPrice) / currentPrice
  let marginOfSafety := upside
  return {
    projections := projections
    wacc := wacc
    terminalValue := terminalValue
    terminalValuePV := terminalValuePV
    enterpriseValue := enterpriseValue
    equityValue := equityValue
    intrinsicPrice := intrinsicPrice
    currentPrice := currentPrice
    upside := upside
    marginOfSafety := marginOfSafety }

/-! ### Reverse DCF (src/lib/valuation/dcf.ts) -/

/-- The five assessment categories of calculateReverseDCF.  The source
renders each as an interpolated display string; the embedding keeps the
branch identity and drops the numeric string formatting. -/
inductive GrowthAssessment where
  | extremelyAggressive
  | veryOptimistic
  | reasonablyOptimistic
  | conservative
  | pessimistic
deriving DecidableEq, Repr

structure ReverseDCFResult where
  impliedGrowthRate : ℚ
  assessment : GrowthAssessment
  isReasonable : Bool
deriving DecidableEq, Repr

/-- One enterprise-value evaluation of the reverse-DCF loop body:
project 20 years of FCF at the candidate growth rate, discount them,
and add the discounted terminal value. -/
def reverseCalcEV (startingFCF terminalGrowthRate wacc growth : ℚ) :
    Except String ℚ := do
  let projections := projectFCF startingFCF growth terminalGrowthRate DCF_PROJECTION_YEARS
  let pvOfCashFlows := projections.foldl
    (fun sum proj => sum + proj.fcf * calculateDiscountFactor proj.year wacc) 0
  let finalFCF := (projections.getD (projections.length - 1) ⟨0, 0, 0⟩).fcf
  let tv ← calculateTerminalValue finalFCF terminalGrowthRate wacc
  return pvOfCashFlows + calculatePresentValue tv DCF_PROJECTION_YEARS wacc

/-- The bisection loop of calculateReverseDCF with fuel counting the
iterations that remain after the current one (the source runs 50
iterations, so the initial fuel is 49).  The boolean is a ghost flag
recording whether the tolerance test of the source fired; the rational
component is exactly the impliedGrowthRate the source returns: the last
midpoint computed before the loop broke or ran out of iterations. -/
def reverseDCFGo (startingFCF terminalGrowthRate wacc targetEV : ℚ) :
    ℕ → ℚ → ℚ → Except String (ℚ × Bool)
  | 0, lowGrowth, highGrowth => do
    let impliedGrowthRate := (lowGrowth + highGrowth) / 2
    let calculatedEV ← reverseCalcEV startingFCF terminalGrowthRate wacc impliedGrowthRate
    return (impliedGrowthRate,
      decide (|calculatedEV - targetEV| < (1/10000) * targetEV))
  | n + 1, lowGrowth, highGrowth => do
    let impliedGrowthRate := (lowGrowth + highGrowth) / 2
    let calculatedEV ← reverseCalcEV startingFCF terminalGrowthRate wacc impliedGrowthRate
    if |calculatedEV - targetEV| < (1/10000) * targetEV then
      return (impliedGrowthRate, true)
    else if calculatedEV < targetEV then
      reverseDCFGo startingFCF terminalGrowthRate wacc targetEV n impliedGrowthRate highGrowth
    else
      reverseDCFGo startingFCF terminalGrowthRate wacc targetEV n lowGrowth impliedGrowthRate

/-- calculateReverseDCF: solve for the implied growth rate by bisection
over growth in the interval from -0.20 to 0.50, 50 iterations, relative
tolerance 1e-4 of the market-implied enterprise value, then classify the
rate against the fixed reasonableness thresholds. -/
def calculateReverseDCF (currentPrice startingFCF sharesOutstanding totalDebt
    cash wacc terminalGrowthRate : ℚ) : Except String ReverseDCFResult := do
  let targetEquityValue := currentPrice * sharesOutstanding
  let targetEV := targetEquityValue + totalDebt - cash
  let r ← reverseDCFGo startingFCF terminalGrowthRate wacc targetEV 49 (-(20/100)) (50/100)
  let impliedGrowthRate := r.1
  if impliedGrowthRate > 30/100 then
    return ⟨impliedGrowthRate, .extremelyAggressive, false⟩
  else if impliedGrowthRate > 20/100 then
    return ⟨impliedGrowthRate, .veryOptimistic, false⟩
  else if impliedGrowthRate > 10/100 then
    return ⟨impliedGrowthRate, .reasonablyOptimistic, true⟩
  else if impliedGrowthRate > 0 then
    return ⟨impliedGrowthRate, .conservative, true⟩
  else
    return ⟨impliedGrowthRate, .pessimistic, true⟩

/-! ### Technical indicators (src/lib/analysis/technical.ts) -/

inductive Trend where
  | bullish
  | bearish
  | neutral
deriving DecidableEq, Repr

/-- calculateSMA: mean of the first period prices, 0 when there are
fewer than period points. -/
def calculateSMA (prices : List ℚ) (period : ℕ) : ℚ :=
  if prices.length < period then 0
  else (prices.take period).sum / (period : ℚ)

/-- The EMA loop: walk the index i downward from length - 2 while
length - i stays within twice the period, folding each price into the
accumulator. -/
def calculateEMAGo (prices : List ℚ) (multiplier : ℚ) (twoPeriod len : ℕ) :
    ℕ → ℚ → ℚ
  | 0, ema =>
    if len - 0 ≤ twoPeriod then (prices.getD 0 0 - ema) * multiplier + ema
    else ema
  | i + 1, ema =>
    if len - (i + 1) ≤ twoPeriod then
      calculateEMAGo prices multiplier twoPeriod len i
        ((prices.getD (i + 1) 0 - ema) * multiplier + ema)
    else ema

/-- calculateEMA: seeded from the oldest entry, smoothing constant
2 / (period + 1), walking from old to new over at most twice period
points; 0 when there are fewer than period points.  (The source is
never called with period 0; the empty-list arm returns the seed.) -/
def calculateEMA (prices : List ℚ) (period : ℕ) : ℚ :=
  if prices.length < period then 0
  else
    let multiplier : ℚ := 2 / ((period : ℚ) + 1)
    let ema := prices.getD (prices.length - 1) 0
    match prices.length with
    | 0 => ema
    | 1 => ema
    | n + 2 => calculateEMAGo prices multiplier (period * 2) (n + 2) n ema

/-! #### RSI -/

/-- The day-over-day changes of calculateRSI: prices are
reverse-chronological, so each change is the price minus its successor. -/
def rsiChanges (prices : List ℚ) : List ℚ :=
  List.zipWith (fun a b => a - b) prices prices.tail

/-- The average gain over the first period changes. -/
def rsiAvgGain (prices : List ℚ) (period : ℕ) : ℚ :=
  (((rsiChanges prices).take period).map
    (fun change => if 0 ≤ change then change else 0)).sum / (period : ℚ)

/-- The average loss over the first period changes. -/
def rsiAvgLoss (prices : List ℚ) (period : ℕ) : ℚ :=
  (((rsiChanges prices).take period).map
    (fun change => if 0 ≤ change then 0 else |change|)).sum / (period : ℚ)

/-- calculateRSI: 50 with fewer than period + 1 points, 100 when the
average loss is zero, otherwise 100 - 100 / (1 + RS). -/
def calculateRSI (prices : List ℚ) (period : ℕ) : ℚ :=
  if prices.length < period + 1 then 50
  else
    let avgGain := rsiAvgGain prices period
    let avgLoss := rsiAvgLoss prices period
    if avgLoss = 0 then 100
    else
      let rs := avgGain / avgLoss
      100 - 100 / (1 + rs)

/-! #### MACD -/

/-- The MACD triple.  The signal of the source is the plain average of
the trailing MACD-line samples; when that sample set is empty the
JavaScript division 0 / 0 yields NaN, modelled here by none, and the
histogram (macd minus NaN) is then none as well. -/
structure MACDValue where
  macd : ℚ
  signal : Option ℚ
  histogram : Option ℚ
deriving DecidableEq, Repr

/-- calculateMACD: all-zero below 26 points; otherwise the MACD line is
EMA12 - EMA26 and the signal averages the MACD line recomputed at up to
9 trailing offsets. -/
def calculateMACD (prices : List ℚ) : MACDValue :=
  if prices.length < 26 then ⟨0, some 0, some 0⟩
  else
    let ema12 := calculateEMA prices 12
    let ema26 := calculateEMA prices 26
    let macd := ema12 - ema26
    let macdLine := (List.range (min (prices.length - 26) 9)).map (fun i =>
      calculateEMA (prices.drop i) 12 - calculateEMA (prices.drop i) 26)
    let signal : Option ℚ :=
      if macdLine.length = 0 then none
      else some (macdLine.sum / (macdLine.length : ℚ))
    let histogram := signal.map (fun s => macd - s)
    ⟨macd, signal, histogram⟩

/-! #### Trend and scoring -/

/-- determineTrend: bullish when all three comparisons hold, bearish
when all three fail, otherwise neutral. -/
def determineTrend (currentPrice sma50 sma200 : ℚ) : Trend :=
  let sma50AboveSma200 := sma200 < sma50
  let priceAboveSma50 := sma50 < currentPrice
  let priceAboveSma200 := sma200 < currentPrice
  if sma50AboveSma200 ∧ priceAboveSma50 ∧ priceAboveSma200 then .bullish
  else if ¬sma50AboveSma200 ∧ ¬priceAboveSma50 ∧ ¬priceAboveSma200 then .bearish
  else .neutral

structure TechnicalIndicators where
  sma50 : ℚ
  sma200 : ℚ
  rsi : ℚ
  macd : MACDValue
  supportLevel : ℚ
  resistanceLevel : ℚ
  trendDirection : Trend
  priceVsSma50 : ℚ
  priceVsSma200 : ℚ
deriving DecidableEq, Repr

structure SignalScore where
  score : ℚ
  signal : Trend
deriving DecidableEq, Repr

/-- A JavaScript strict greater-than against a possibly-NaN number: any
comparison with NaN is false. -/
def jsGtOpt (x : Option ℚ) (c : ℚ) : Bool :=
  match x with
  | none => false
  | some v => decide (c < v)

/-- A JavaScript strict less-than against a possibly-NaN number. -/
def jsLtOpt (x : Option ℚ) (c : ℚ) : Bool :=
  match x with
  | none => false
  | some v => decide (v < c)

/-- scoreRSI: oversold at or below 30 is bullish (85), overbought at or
above 70 is bearish (25), otherwise neutral (50). -/
def scoreRSI (rsi : ℚ) : SignalScore :=
  if rsi ≤ 30 then ⟨85, .bullish⟩
  else if 70 ≤ rsi then ⟨25, .bearish⟩
  else ⟨50, .neutral⟩

/-- scoreMACD: by the sign of the histogram; a NaN histogram compares
false both ways and lands in the neutral branch. -/
def scoreMACD (m : MACDValue) : SignalScore :=
  if jsGtOpt m.histogram 0 then ⟨75, .bullish⟩
  else if jsLtOpt m.histogram 0 then ⟨25, .bearish⟩
  else ⟨50, .neutral⟩

/-- scorePriceVsSMA: fixed ladder on the fractional distance above the
moving average. -/
def scorePriceVsSMA (percentAbove : ℚ) : SignalScore :=
  if 1/10 < percentAbove then ⟨70, .bullish⟩
  else if 0 < percentAbove then ⟨60, .bullish⟩
  else if -(5/100) < percentAbove then ⟨45, .neutral⟩
  else if -(1/10) < percentAbove then ⟨35, .bearish⟩
  else ⟨20, .bearish⟩

/-- scoreTrend: bullish 80, bearish 20, neutral 50. -/
def scoreTrend (trend : Trend) : SignalScore :=
  match trend with
  | .bullish => ⟨80, .bullish⟩
  | .bearish => ⟨20, .bearish⟩
  | .neutral => ⟨50, .neutral⟩

/-- One named signal of the technical score breakdown.  The display
value string of the source (for example the RSI rendered by toFixed) is
presentation-only and omitted from the embedding. -/
structure TechnicalSignal where
  name : String
  signal : Trend
  weight : ℚ
deriving DecidableEq, Repr

structure TechnicalScore where
  score : ℤ
  signals : List TechnicalSignal
deriving DecidableEq, Repr

/-- calculateTechnicalScore: the weighted average of the five signal
scores with the fixed weights, rounded to the nearest integer.  The
indexed reduce of the source is embedded as a fold over the zipped
score and weight lists. -/
def calculateTechnicalScore (indicators : TechnicalIndicators) : TechnicalScore :=
  let trendResult := scoreTrend indicators.trendDirection
  let rsiResult := scoreRSI indicators.rsi
  let macdResult := scoreMACD indicators.macd
  let sma50Result := scorePriceVsSMA indicators.priceVsSma50
  let sma200Result := scorePriceVsSMA indicators.priceVsSma200
  let signals : List TechnicalSignal :=
    [⟨"Trend Direction", trendResult.signal, 25/100⟩,
     ⟨"RSI", rsiResult.signal, 20/100⟩,
     ⟨"MACD", macdResult.signal, 20/100⟩,
     ⟨"Price vs SMA50", sma50Result.signal, 15/100⟩,
     ⟨"Price vs SMA200", sma200Result.signal, 20/100⟩]
  let scores := [trendResult, rsiResult, macdResult, sma50Result, sma200Result]
  let weights : List ℚ := [25/100, 20/100, 20/100, 15/100, 20/100]
  let totalWeight := weights.foldl (fun a b => a + b) 0
  let weightedScore := (scores.zip weights).foldl
    (fun sum p => sum + p.1.score * p.2) 0
  let finalScore := round (weightedScore / totalWeight)
  ⟨finalScore, signals⟩

/-! ### Fundamental analysis (src/lib/analysis/fundamental.ts)

The statements interfaces of src/types carry many line items; the
embedding keeps the fields the analysis functions read.  The ISO date
string is modelled by an integer timestamp, matching the numeric
comparator the source sorts with.  Math.sqrt and fractional Math.pow
are float primitives with irrational values; they enter the module as
the explicit parameters sqrtA and powA. -/

structure IncomeStatement where
  date : ℤ
  revenue : ℚ
  operatingIncome : ℚ
  netIncomeMargin : ℚ
  grossProfitMargin : ℚ
  sharesOutstanding : ℚ
deriving DecidableEq, Repr

structure BalanceSheet where
  date : ℤ
  cash : ℚ
  totalDebt : ℚ
  totalEquity : ℚ
deriving DecidableEq, Repr

structure CashFlowStatement where
  date : ℤ
  freeCashFlow : ℚ
deriving DecidableEq, Repr

structure FinancialStatements where
  income : List IncomeStatement
  balance : List BalanceSheet
  cashFlow : List CashFlowStatement
deriving DecidableEq, Repr

/-- The descending-by-date sort the source performs with a numeric
comparator; any comparison sort realises it, here insertion sort. -/
def sortByDateDesc {α : Type} (key : α → ℤ) (l : List α) : List α :=
  List.insertionSort (fun a b => key b ≤ key a) l

structure FundamentalMetrics where
  roic : ℚ
  roicTrend : ℚ
  revenueGrowth5Y : ℚ
  revenueGrowthStability : ℚ
  fcfGrowth5Y : ℚ
  fcfConsistency : ℚ
  debtToFCF : ℚ
  operatingLeverage : ℚ
  netMargin : ℚ
  grossMargin : ℚ
  shareDilution5Y : ℚ
deriving DecidableEq, Repr

/-- calculateROIC: NOPAT over invested capital, 0 when invested capital
is not positive. -/
def calculateROIC (operatingIncome taxRate totalEquity totalDebt cash : ℚ) : ℚ :=
  let nopat := operatingIncome * (1 - taxRate)
  let investedCapital := totalEquity + totalDebt - cash
  if investedCapital ≤ 0 then 0 else nopat / investedCapital

/-- calculateCAGR: (endValue / startValue) to the power 1 / years,
minus 1; 0 when either value or the year count is not positive.  powA
stands for Math.pow. -/
def calculateCAGR (powA : ℚ → ℚ → ℚ) (startValue endValue years : ℚ) : ℚ :=
  if startValue ≤ 0 ∨ endValue ≤ 0 ∨ years ≤ 0 then 0
  else powA (endValue / startValue) (1 / years) - 1

/-- calculateStdDev: population standard deviation, 0 below 2 points.
sqrtA stands for Math.sqrt. -/
def calculateStdDev (sqrtA : ℚ → ℚ) (values : List ℚ) : ℚ :=
  if values.length < 2 then 0
  else
    let mean := values.sum / (values.length : ℚ)
    let squareDiffs := values.map (fun v => (v - mean) ^ 2)
    let avgSquareDiff := squareDiffs.sum / (squareDiffs.length : ℚ)
    sqrtA avgSquareDiff

/-- calculateGrowthConsistency: 100 minus 100 times the coefficient of
variation of the year-over-year growth rates, clamped below at 0. -/
def calculateGrowthConsistency (sqrtA : ℚ → ℚ) (values : List ℚ) : ℚ :=
  if values.length < 3 then 0
  else
    let growthRates := ((values.zip values.tail).filter (fun p => 0 < p.1)).map
      (fun p => (p.2 - p.1) / p.1)
    if growthRates.length = 0 then 0
    else
      let mean := growthRates.sum / (growthRates.length : ℚ)
      let stdDev := calculateStdDev sqrtA growthRates
      if mean = 0 then 0
      else
        let cv := |stdDev / mean|
        max 0 (100 - cv * 100)

/-- The all-zero metrics returned below the 2-year data minimum. -/
def zeroMetrics : FundamentalMetrics :=
  ⟨0, 0, 0, 0, 0, 0, 0, 0, 0, 0, 0⟩

def defIncome : IncomeStatement := ⟨0, 0, 0, 0, 0, 0⟩

def defBalance : BalanceSheet := ⟨0, 0, 0, 0⟩

/-- extractFundamentalMetrics: sort each statement list most recent
first, then derive the eleven metrics.  Indexing in the source is
guarded by the length checks; the embedding supplies zero records as
the out-of-range defaults.  The JavaScript logical-or fallback on the
margin fields is the identity on numeric field values and is dropped. -/
def extractFundamentalMetrics (sqrtA : ℚ → ℚ) (powA : ℚ → ℚ → ℚ)
    (financials : FinancialStatements) : FundamentalMetrics :=
  if financials.income.length < 2 ∨ financials.balance.length < 2 ∨
      financials.cashFlow.length < 2 then zeroMetrics
  else
    let sortedIncome := sortByDateDesc (fun i => i.date) financials.income
    let sortedBalance := sortByDateDesc (fun b => b.date) financials.balance
    let sortedCashFlow := sortByDateDesc (fun c => c.date) financials.cashFlow
    let latestIncome := sortedIncome.getD 0 defIncome
    let latestBalance := sortedBalance.getD 0 defBalance
    let taxRate : ℚ := 25/100
    let roic := calculateROIC latestIncome.operatingIncome taxRate
      latestBalance.totalEquity latestBalance.totalDebt latestBalance.cash
    let roicTrend :=
      if 3 ≤ sortedIncome.length ∧ 3 ≤ sortedBalance.length then
        roic - calculateROIC (sortedIncome.getD 2 defIncome).operatingIncome taxRate
          (sortedBalance.getD 2 defBalance).totalEquity
          (sortedBalance.getD 2 defBalance).totalDebt
          (sortedBalance.getD 2 defBalance).cash
      else 0
    let revenues := ((sortedIncome.take 5).reverse).map (fun i => i.revenue)
    let revenueGrowth5Y :=
      if 2 ≤ revenues.length then
        calculateCAGR powA (revenues.getD 0 0) (revenues.getD (revenues.length - 1) 0)
          ((revenues.length : ℚ) - 1)
      else 0
    let revenueGrowthStability := calculateGrowthConsistency sqrtA revenues
    let fcfs := ((sortedCashFlow.take 5).reverse).map (fun c => c.freeCashFlow)
    let fcfGrowth5Y :=
      if 2 ≤ fcfs.length ∧ 0 < fcfs.getD 0 0 then
        calculateCAGR powA (fcfs.getD 0 0) (fcfs.getD (fcfs.length - 1) 0)
          ((fcfs.length : ℚ) - 1)
      else 0
    let fcfConsistency := calculateGrowthConsistency sqrtA (fcfs.filter (fun f => 0 < f))
    let avgFCF := fcfs.sum / (fcfs.length : ℚ)
    let debtToFCF := if 0 < avgFCF then latestBalance.totalDebt / avgFCF else 99
    let operatingLeverage :=
      if 2 ≤ sortedIncome.length then
        let revChange := latestIncome.revenue - (sortedIncome.getD 1 defIncome).revenue
        let opIncChange :=
          latestIncome.operatingIncome - (sortedIncome.getD 1 defIncome).operatingIncome
        if revChange ≠ 0 then opIncChange / revChange else 1
      else 1
    let netMargin := latestIncome.netIncomeMargin
    let grossMargin := latestIncome.grossProfitMargin
    let shares := (sortedIncome.take 5).map (fun i => i.sharesOutstanding)
    let shareDilution5Y :=
      if 2 ≤ shares.length ∧ 0 < shares.getD (shares.length - 1) 0 then
        (shares.getD 0 0 - shares.getD (shares.length - 1) 0) /
          shares.getD (shares.length - 1) 0
      else 0
    { roic := roic
      roicTrend := roicTrend
      revenueGrowth5Y := revenueGrowth5Y
      revenueGrowthStability := revenueGrowthStability
      fcfGrowth5Y := fcfGrowth5Y
      fcfConsistency := fcfConsistency
      debtToFCF := debtToFCF
      operatingLeverage := operatingLeverage
      netMargin := netMargin
      grossMargin := grossMargin
      shareDilution5Y := shareDilution5Y }

/-! #### Fundamental scoring -/

structure FactorScore where
  score : ℚ
  assessment : String
deriving DecidableEq, Repr

/-- scoreROIC ladder. -/
def scoreROIC (roic : ℚ) : FactorScore :=
  if 25/100 ≤ roic then ⟨100, "Exceptional ROIC"⟩
  else if 20/100 ≤ roic then ⟨85, "Excellent ROIC"⟩
  else if 15/100 ≤ roic then ⟨70, "Good ROIC"⟩
  else if 10/100 ≤ roic then ⟨50, "Fair ROIC"⟩
  else if 5/100 ≤ roic then ⟨30, "Below average ROIC"⟩
  else ⟨10, "Poor ROIC"⟩

/-- scoreRevenueGrowth ladder, shared by the FCF growth factor. -/
def scoreRevenueGrowth (growth : ℚ) : FactorScore :=
  if 25/100 ≤ growth then ⟨100, "Exceptional growth"⟩
  else if 15/100 ≤ growth then ⟨85, "Strong growth"⟩
  else if 10/100 ≤ growth then ⟨70, "Good growth"⟩
  else if 5/100 ≤ growth then ⟨50, "Moderate growth"⟩
  else if 0 ≤ growth then ⟨30, "Slow growth"⟩
  else ⟨10, "Declining revenue"⟩

/-- scoreDebtManagement ladder on debt over average FCF. -/
def scoreDebtManagement (debtToFCF : ℚ) : FactorScore :=
  if debtToFCF ≤ 1 then ⟨100, "Minimal debt"⟩
  else if debtToFCF ≤ 2 then ⟨85, "Low debt"⟩
  else if debtToFCF ≤ 4 then ⟨65, "Moderate debt"⟩
  else if debtToFCF ≤ 6 then ⟨40, "High debt"⟩
  else ⟨15, "Very high debt"⟩

/-- scoreDilution ladder: buybacks score high, dilution low. -/
def scoreDilution (dilution : ℚ) : FactorScore :=
  if dilution ≤ -(5/100) then ⟨100, "Significant buybacks"⟩
  else if dilution ≤ 0 then ⟨80, "Share buybacks"⟩
  else if dilution ≤ 2/100 then ⟨60, "Minimal dilution"⟩
  else if dilution ≤ 5/100 then ⟨40, "Moderate dilution"⟩
  else ⟨20, "High dilution"⟩

structure FundamentalFactor where
  name : String
  value : ℚ
  score : ℚ
  weight : ℚ
  assessment : String
deriving DecidableEq, Repr

structure FundamentalScore where
  score : ℤ
  factors : List FundamentalFactor
deriving DecidableEq, Repr

/-- calculateFundamentalScore: score the eight factors, then return the
weight-normalised rounded total.  The margin factor min(100, netMargin
times 500) has no lower clamp. -/
def calculateFundamentalScore (sqrtA : ℚ → ℚ) (powA : ℚ → ℚ → ℚ)
    (financials : FinancialStatements) : FundamentalScore :=
  let metrics := extractFundamentalMetrics sqrtA powA financials
  let roicResult := scoreROIC metrics.roic
  let revenueResult := scoreRevenueGrowth metrics.revenueGrowth5Y
  let fcfResult := scoreRevenueGrowth metrics.fcfGrowth5Y
  let debtResult := scoreDebtManagement metrics.debtToFCF
  let marginScore := min 100 (metrics.netMargin * 500)
  let dilutionResult := scoreDilution metrics.shareDilution5Y
  let factors : List FundamentalFactor :=
    [⟨"Return on Invested Capital", metrics.roic, roicResult.score, 20/100,
      roicResult.assessment⟩,
     ⟨"Revenue Growth (5Y)", metrics.revenueGrowth5Y, revenueResult.score, 15/100,
      revenueResult.assessment⟩,
     ⟨"Revenue Stability", metrics.revenueGrowthStability,
      metrics.revenueGrowthStability, 10/100,
      if 70 ≤ metrics.revenueGrowthStability then "Consistent" else "Variable"⟩,
     ⟨"FCF Growth (5Y)", metrics.fcfGrowth5Y, fcfResult.score, 15/100,
      fcfResult.assessment⟩,
     ⟨"FCF Consistency", metrics.fcfConsistency, metrics.fcfConsistency, 10/100,
      if 70 ≤ metrics.fcfConsistency then "Reliable cash flows"
      else "Variable cash flows"⟩,
     ⟨"Debt Management", metrics.debtToFCF, debtResult.score, 10/100,
      debtResult.assessment⟩,
     ⟨"Profit Margins", metrics.netMargin, marginScore, 10/100,
      if 15/100 ≤ metrics.netMargin then "Excellent margins" else "Fair margins"⟩,
     ⟨"Share Dilution", metrics.shareDilution5Y, dilutionResult.score, 5/100,
      dilutionResult.assessment⟩]
  let totalWeight : ℚ := factors.foldl (fun sum f => sum + f.weight) 0
  let weightedScore : ℚ := factors.foldl (fun sum f => sum + f.score * f.weight) 0
  let finalScore := if 0 < totalWeight then round (weightedScore / totalWeight) else 0
  ⟨finalScore, factors⟩

/-! ### Recommendation (src/lib/services/stock-analyzer.ts) -/

inductive Recommendation where
  | strongBuy
  | buy
  | hold
  | avoid
  | strongAvoid
deriving DecidableEq, Repr

/-- determineRecommendation: the fixed precedence chain over margin of
safety and the fundamental score.  The composite score of the source is
computed and never read; it is reproduced for fidelity. -/
def determineRecommendation (marginOfSafety fundamentalScore technicalScore
    confidenceScore : ℚ) : Recommendation :=
  let _compositeScore := marginOfSafety * 100 * (40/100) +
    fundamentalScore * (30/100) + technicalScore * (20/100) +
    confidenceScore * (10/100)
  if 35/100 ≤ marginOfSafety ∧ 60 ≤ fundamentalScore then .strongBuy
  else if MARGIN_OF_SAFETY_BUY ≤ marginOfSafety ∧ 50 ≤ fundamentalScore then .buy
  else if 0 ≤ marginOfSafety ∧ marginOfSafety < MARGIN_OF_SAFETY_BUY then .hold
  else if marginOfSafety < -PREMIUM_THRESHOLD_AVOID ∧ fundamentalScore < 40 then
    .strongAvoid
  else if marginOfSafety < 0 then .avoid
  else .hold

/-! ### Specification-side definitions

These restate formulas in the words of the specification, to be compared
with the embedded source functions. -/

/-- The projected free cash flow of year t as the specification writes
it: the starting FCF compounded by the per-year growth schedule. -/
def fcfAt (startingFCF analystGrowthRate terminalGrowthRate : ℚ) : ℕ → ℚ
  | 0 => startingFCF
  | t + 1 => fcfAt startingFCF analystGrowthRate terminalGrowthRate t *
      (1 + calculateGrowthRate (t + 1) analystGrowthRate terminalGrowthRate)

/-- The sum of the per-year present values fcf t times 1 / (1 + wacc) ^ t
over t = 1..years, as the specification writes it. -/
def presentValueSum (startingFCF analystGrowthRate terminalGrowthRate wacc : ℚ)
    (years : ℕ) : ℚ :=
  ((List.range years).map (fun i =>
    fcfAt startingFCF analystGrowthRate terminalGrowthRate (i + 1) *
      (1 / (1 + wacc) ^ (i + 1)))).sum

/-- The recommendation precedence chain exactly as the specification
words it, over margin of safety and fundamental score alone. -/
def recommendationSpec (marginOfSafety fundamentalScore : ℚ) : Recommendation :=
  if 35/100 ≤ marginOfSafety ∧ 60 ≤ fundamentalScore then .strongBuy
  else if 25/100 ≤ marginOfSafety ∧ 50 ≤ fundamentalScore then .buy
  else if 0 ≤ marginOfSafety ∧ marginOfSafety < 25/100 then .hold
  else if marginOfSafety < -(20/100) ∧ fundamentalScore < 40 then .strongAvoid
  else if marginOfSafety < 0 then .avoid
  else .hold

/-! ### Helper lemmas -/

theorem foldl_add_eq {α : Type} (f : α → ℚ) :
    ∀ (l : List α) (c : ℚ), l.foldl (fun sum x => sum + f x) c = c + (l.map f).sum := by
  intro l
  induction l with
  | nil => simp
  | cons x xs ih => intro c; simp [List.foldl_cons, ih (c + f x)]; ring

theorem getD_map_range {α : Type} (f : ℕ → α) {n i : ℕ} (h : i < n) (d : α) :
    ((List.range n).map f).getD i d = f i := by
  rw [List.getD_eq_getElem?_getD, List.getElem?_map, List.getElem?_range h]
  rfl

/-- The characterization of the projectFCF loop: starting the loop at
year with the accumulated FCF of year - 1 yields the rows of the closed
form. -/
theorem projectFCFGo_eq (a t s : ℚ) :
    ∀ (n year : ℕ), 1 ≤ year →
      projectFCFGo a t n year (fcfAt s a t (year - 1)) =
      (List.range n).map (fun i =>
        ⟨year + i, fcfAt s a t (year + i), calculateGrowthRate (year + i) a t⟩) := by
  intro n
  induction n with
  | zero => intro year _; simp [projectFCFGo]
  | succ n ih =>
    intro year hy
    obtain ⟨y, rfl⟩ : ∃ y, year = y + 1 := ⟨year - 1, by omega⟩
    have hfcf : fcfAt s a t (y + 1 - 1) * (1 + calculateGrowthRate (y + 1) a t) =
        fcfAt s a t (y + 1) := by simp [fcfAt]
    rw [projectFCFGo, hfcf]
    have hstep := ih (y + 2) (by omega)
    have h2 : fcfAt s a t (y + 2 - 1) = fcfAt s a t (y + 1) := by norm_num
    rw [h2] at hstep
    rw [hstep, List.range_succ_eq_map, List.map_cons, List.map_map]
    congr 1
    apply List.map_congr_left
    intro i _
    have h3 : y + 2 + i = y + 1 + Nat.succ i := by omega
    simp [Function.comp, h3, Nat.succ_eq_add_one]

/-- projectFCF equals the closed-form rows of the specification. -/
theorem projectFCF_eq (s a t : ℚ) (years : ℕ) :
    projectFCF s a t years =
    (List.range years).map (fun i =>
      ⟨i + 1, fcfAt s a t (i + 1), calculateGrowthRate (i + 1) a t⟩) := by
  have h := projectFCFGo_eq a t s years 1 (le_refl 1)
  simp only [fcfAt] at h
  rw [projectFCF, h]
  apply List.map_congr_left
  intro i _
  have h1 : 1 + i = i + 1 := by omega
  rw [h1]

/-! ### Claim theorems -/

/-- Claim C8: calculateTerminalValue raises an error exactly when the
discount rate is at most the terminal growth rate, and otherwise
returns finalFCF times (1 + terminalGrowthRate) divided by
(discountRate - terminalGrowthRate). -/
theorem terminalValue_spec (finalFCF terminalGrowthRate discountRate : ℚ) :
    ((calculateTerminalValue finalFCF terminalGrowthRate discountRate).toOption = none ↔
      discountRate ≤ terminalGrowthRate) ∧
    (terminalGrowthRate < discountRate →
      calculateTerminalValue finalFCF terminalGrowthRate discountRate =
        .ok ((finalFCF * (1 + terminalGrowthRate)) / (discountRate - terminalGrowthRate))) := by
  refine ⟨?_, ?_⟩
  · by_cases h : discountRate ≤ terminalGrowthRate
    · simp [calculateTerminalValue, h, Except.toOption]
    · simp [calculateTerminalValue, h, Except.toOption]
  · intro h
    unfold calculateTerminalValue
    rw [if_neg (not_le.mpr h)]

/-- Witness for C8 at concrete inputs. -/
theorem terminalValue_spec_witness :
    (25/1000 : ℚ) < 9/100 ∧
    calculateTerminalValue 100 (25/1000) (9/100) =
      .ok ((100 * (1 + 25/1000)) / (9/100 - 25/1000)) :=
  ⟨by norm_num, (terminalValue_spec 100 (25/1000) (9/100)).2 (by norm_num)⟩

/-- Claim C4: the growth schedule returns the analyst rate in years
1..5, the linear decay floored at the terminal rate in years 6..15, the
terminal rate in years 16..20; g 5 is the analyst rate, g 16 the
terminal rate, and for analyst above terminal the schedule is
non-increasing across years 6..15. -/
theorem growthSchedule_spec (a t : ℚ) :
    (∀ year : ℕ, 1 ≤ year → year ≤ 5 → calculateGrowthRate year a t = a) ∧
    (∀ year : ℕ, 6 ≤ year → year ≤ 15 →
      calculateGrowthRate year a t = max (a - (a - t) * (((year : ℚ) - 5) / 10)) t) ∧
    (∀ year : ℕ, 16 ≤ year → year ≤ 20 → calculateGrowthRate year a t = t) ∧
    calculateGrowthRate 5 a t = a ∧
    calculateGrowthRate 16 a t = t ∧
    (t < a → ∀ y y' : ℕ, 6 ≤ y → y ≤ y' → y' ≤ 15 →
      calculateGrowthRate y' a t ≤ calculateGrowthRate y a t) := by
  have phase1 : ∀ year : ℕ, 1 ≤ year → year ≤ 5 → calculateGrowthRate year a t = a := by
    intro year _ h5
    simp only [calculateGrowthRate, DCF_PHASE1_YEARS]
    rw [if_pos h5]
  have phase2 : ∀ year : ℕ, 6 ≤ year → year ≤ 15 →
      calculateGrowthRate year a t = max (a - (a - t) * (((year : ℚ) - 5) / 10)) t := by
    intro year h6 h15
    simp only [calculateGrowthRate, DCF_PHASE1_YEARS, DCF_PHASE2_YEARS]
    rw [if_neg (by omega), if_neg (by omega)]
    norm_num
  have phase3 : ∀ year : ℕ, 16 ≤ year → year ≤ 20 → calculateGrowthRate year a t = t := by
    intro year h16 _
    simp only [calculateGrowthRate, DCF_PHASE1_YEARS, DCF_PHASE2_YEARS]
    rw [if_neg (by omega), if_pos (by omega)]
  refine ⟨phase1, phase2, phase3, phase1 5 (by omega) (by omega),
    phase3 16 (by omega) (by omega), ?_⟩
  intro ht y y' h6 hyy h15
  rw [phase2 y h6 (by omega), phase2 y' (by omega) h15]
  have hat : (0 : ℚ) ≤ a - t := by linarith
  have hyq : (y : ℚ) ≤ (y' : ℚ) := by exact_mod_cast hyy
  have hmul := mul_le_mul_of_nonneg_left
    (show ((y : ℚ) - 5) / 10 ≤ ((y' : ℚ) - 5) / 10 by linarith) hat
  exact max_le_max (by linarith) (le_refl t)

/-- Witness for C4 at concrete inputs. -/
theorem growthSchedule_spec_witness :
    calculateGrowthRate 3 (1/10) (1/40) = 1/10 ∧
    calculateGrowthRate 9 (1/10) (1/40) ≤ calculateGrowthRate 7 (1/10) (1/40) :=
  ⟨(growthSchedule_spec (1/10) (1/40)).1 3 (by omega) (by omega),
   (growthSchedule_spec (1/10) (1/40)).2.2.2.2.2 (by norm_num) 7 9
     (by omega) (by omega) (by omega)⟩

/-- Claim C3: determineRecommendation evaluates exactly the fixed
precedence chain of the specification, ignoring the technical and
confidence scores, and margin 0.40 with fundamental score 70 yields
STRONG BUY for every technical and confidence input. -/
theorem recommendation_precedence :
    (∀ m f t c : ℚ, determineRecommendation m f t c = recommendationSpec m f) ∧
    (∀ t c : ℚ, determineRecommendation (40/100) 70 t c = .strongBuy) := by
  have main : ∀ m f t c : ℚ, determineRecommendation m f t c = recommendationSpec m f := by
    intro m f t c
    unfold determineRecommendation recommendationSpec MARGIN_OF_SAFETY_BUY
      PREMIUM_THRESHOLD_AVOID
    rfl
  refine ⟨main, fun t c => ?_⟩
  rw [main]
  with_unfolding_all decide

theorem except_bind_ok {α β : Type} (v : α) (g : α → Except String β) :
    (Except.ok v >>= g : Except String β) = g v := rfl

theorem except_bind_error {α β : Type} (e : String) (g : α → Except String β) :
    (Except.error e >>= g : Except String β) = .error e := rfl

theorem except_pure_eq {α : Type} (v : α) : (pure v : Except String α) = .ok v := rfl

/-- Claim C1: whenever the computed WACC exceeds the terminal growth
rate (and the projection horizon is at least one year, as the
DCFInputs invariant guarantees), calculateDCF succeeds and returns
enterpriseValue equal to the sum of the per-year present values plus
the discounted terminal value, equityValue equal to enterpriseValue
minus totalDebt plus cash, and intrinsicPrice equal to equityValue
divided by sharesOutstanding. -/
theorem calculateDCF_rollup (inputs : DCFInputs) (currentPrice : ℚ)
    (hw : inputs.terminalGrowthRate <
      calculateWACC inputs.beta inputs.riskFreeRate inputs.marketReturn)
    (hy : 1 ≤ inputs.projectionYears) :
    ∃ r, calculateDCF inputs currentPrice = .ok r ∧
      r.enterpriseValue =
        presentValueSum inputs.startingFCF inputs.analystGrowthRate
          inputs.terminalGrowthRate
          (calculateWACC inputs.beta inputs.riskFreeRate inputs.marketReturn)
          inputs.projectionYears +
        fcfAt inputs.startingFCF inputs.analystGrowthRate inputs.terminalGrowthRate
            inputs.projectionYears * (1 + inputs.terminalGrowthRate) /
          (calculateWACC inputs.beta inputs.riskFreeRate inputs.marketReturn -
            inputs.terminalGrowthRate) *
          (1 / (1 + calculateWACC inputs.beta inputs.riskFreeRate inputs.marketReturn) ^
            inputs.projectionYears) ∧
      r.equityValue = r.enterpriseValue - inputs.totalDebt + inputs.cash ∧
      r.intrinsicPrice = r.equityValue / inputs.sharesOutstanding := by
  have key : ∀ f : ℚ, calculateTerminalValue f inputs.terminalGrowthRate
      (calculateWACC inputs.beta inputs.riskFreeRate inputs.marketReturn) =
      .ok (f * (1 + inputs.terminalGrowthRate) /
        (calculateWACC inputs.beta inputs.riskFreeRate inputs.marketReturn -
          inputs.terminalGrowthRate)) := by
    intro f
    unfold calculateTerminalValue
    rw [if_neg (not_le.mpr hw)]
  simp only [calculateDCF, key, except_bind_ok, except_pure_eq]
  refine ⟨_, rfl, ?_, ?_, ?_⟩
  · simp only [projectFCF_eq, List.map_map, foldl_add_eq, zero_add, List.length_map,
      List.length_range]
    have hlast : inputs.projectionYears - 1 < inputs.projectionYears := by omega
    rw [getD_map_range _ hlast]
    simp only [Function.comp]
    have hidx : inputs.projectionYears - 1 + 1 = inputs.projectionYears := by omega
    rw [hidx]
    rfl
  · rfl
  · rfl

/-- Witness for C1 at a concrete input. -/
theorem calculateDCF_rollup_witness :
    ((25/1000 : ℚ) < calculateWACC 1 (45/1000) (10/100) ∧
      1 ≤ (20 : ℕ)) ∧
    ∃ r, calculateDCF ⟨100, 100, 50, 20, 1, 45/1000, 10/100, 1/10, 25/1000, 20⟩ 30 = .ok r ∧
      r.enterpriseValue =
        presentValueSum 100 (1/10) (25/1000) (calculateWACC 1 (45/1000) (10/100)) 20 +
        fcfAt 100 (1/10) (25/1000) 20 * (1 + 25/1000) /
          (calculateWACC 1 (45/1000) (10/100) - 25/1000) *
          (1 / (1 + calculateWACC 1 (45/1000) (10/100)) ^ 20) ∧
      r.equityValue = r.enterpriseValue - 50 + 20 ∧
      r.intrinsicPrice = r.equityValue / 100 :=
  ⟨⟨by with_unfolding_all decide, by omega⟩,
   calculateDCF_rollup ⟨100, 100, 50, 20, 1, 45/1000, 10/100, 1/10, 25/1000, 20⟩ 30
     (by with_unfolding_all decide) (by decide)⟩

/-- Claim C5 failing input: with zero sharesOutstanding (and all other
inputs valid), calculateDCF raises no error and reaches the equity
division with a positive numerator; the embedding's total division
returns 0 where the JavaScript division equityValue / 0 yields
Infinity, so the source silently produces a non-finite intrinsicPrice
instead of raising a DomainError. -/
theorem calculateDCF_zeroShares_noError :
    ((calculateDCF ⟨100, 0, 50, 20, 1, 45/1000, 10/100, 1/10, 25/1000, 20⟩ 30).map
      (fun r => (decide (0 < r.equityValue), r.intrinsicPrice))) = .ok (true, 0) := by
  with_unfolding_all decide

/-- The bisection loop invariant: from a nonempty bracket the loop
returns a value strictly inside the bracket (when it returns at all). -/
theorem reverseDCFGo_mem (f tgr w T : ℚ) :
    ∀ (fuel : ℕ) (low high : ℚ) (p : ℚ × Bool), low < high →
      reverseDCFGo f tgr w T fuel low high = .ok p →
      low < p.1 ∧ p.1 < high := by
  intro fuel
  induction fuel with
  | zero =>
    intro low high p hlh h
    cases hev : reverseCalcEV f tgr w ((low + high) / 2) with
    | error e => rw [reverseDCFGo, hev] at h; simp [Except.bind] at h
    | ok ev =>
      rw [reverseDCFGo, hev] at h
      simp only [except_bind_ok, except_pure_eq, Except.ok.injEq] at h
      rw [← h]
      constructor <;> [skip; skip] <;> simp <;> linarith
  | succ n ih =>
    intro low high p hlh h
    cases hev : reverseCalcEV f tgr w ((low + high) / 2) with
    | error e =>
      rw [reverseDCFGo, hev, except_bind_error] at h
      exact absurd h (by simp)
    | ok ev =>
      rw [reverseDCFGo, hev] at h
      simp only [except_bind_ok] at h
      by_cases h1 : |ev - T| < 1/10000 * T
      · rw [if_pos h1] at h
        simp only [except_pure_eq, Except.ok.injEq] at h
        rw [← h]
        constructor <;> simp <;> linarith
      · rw [if_neg h1] at h
        by_cases h2 : ev < T
        · rw [if_pos h2] at h
          have hb := ih ((low + high) / 2) high p (by linarith) h
          exact ⟨by linarith [hb.1], hb.2⟩
        · rw [if_neg h2] at h
          have hb := ih low ((low + high) / 2) p (by linarith) h
          exact ⟨hb.1, by linarith [hb.2]⟩

/-- Claim C10: calculateReverseDCF terminates (the loop is a bounded
50-step recursion by construction) and any implied growth rate it
returns lies strictly inside the open search interval from -0.20 to
0.50. -/
theorem reverseDCF_bounds (currentPrice startingFCF sharesOutstanding totalDebt
    cash wacc terminalGrowthRate : ℚ) (r : ReverseDCFResult)
    (h : calculateReverseDCF currentPrice startingFCF sharesOutstanding totalDebt
      cash wacc terminalGrowthRate = .ok r) :
    -(20/100) < r.impliedGrowthRate ∧ r.impliedGrowthRate < 50/100 := by
  simp only [calculateReverseDCF] at h
  cases hgo : reverseDCFGo startingFCF terminalGrowthRate wacc
      (currentPrice * sharesOutstanding + totalDebt - cash) 49 (-(20/100)) (50/100) with
  | error e =>
    rw [hgo, except_bind_error] at h
    exact absurd h (by simp)
  | ok p =>
    rw [hgo] at h
    simp only [except_bind_ok] at h
    have hb := reverseDCFGo_mem startingFCF terminalGrowthRate wacc
      (currentPrice * sharesOutstanding + totalDebt - cash) 49 (-(20/100)) (50/100) p
      (by norm_num) hgo
    split_ifs at h <;>
      (simp only [except_pure_eq, Except.ok.injEq] at h; rw [← h]; exact hb)

/-- The enterprise value at growth 0.15, used as an exactly reproducible
bisection target in the witnesses below. -/
def reverseWitnessTarget : ℚ :=
  match reverseCalcEV 100 (25/1000) (9/100) (3/20) with
  | .ok v => v
  | .error _ => 0

set_option maxRecDepth 40000 in
/-- Witness for C10 at a concrete input whose bisection converges at the
first midpoint. -/
theorem reverseDCF_bounds_witness :
    calculateReverseDCF reverseWitnessTarget 100 1 0 0 (9/100) (25/1000) =
      .ok ⟨3/20, .reasonablyOptimistic, true⟩ ∧
    (-(20/100) < (⟨3/20, .reasonablyOptimistic, true⟩ : ReverseDCFResult).impliedGrowthRate ∧
      (⟨3/20, .reasonablyOptimistic, true⟩ : ReverseDCFResult).impliedGrowthRate < 50/100) :=
  ⟨by with_unfolding_all decide,
   reverseDCF_bounds reverseWitnessTarget 100 1 0 0 (9/100) (25/1000)
     ⟨3/20, .reasonablyOptimistic, true⟩ (by with_unfolding_all decide)⟩

/-- Whenever the bisection loop returns with the tolerance flag set,
the returned growth rate reproduces the target enterprise value within
the relative tolerance. -/
theorem reverseDCFGo_converged (f tgr w T : ℚ) :
    ∀ (fuel : ℕ) (low high g : ℚ),
      reverseDCFGo f tgr w T fuel low high = .ok (g, true) →
      ∃ ev, reverseCalcEV f tgr w g = .ok ev ∧ |ev - T| < (1/10000) * T := by
  intro fuel
  induction fuel with
  | zero =>
    intro low high g h
    cases hev : reverseCalcEV f tgr w ((low + high) / 2) with
    | error e =>
      rw [reverseDCFGo, hev, except_bind_error] at h
      exact absurd h (by simp)
    | ok ev =>
      rw [reverseDCFGo, hev, except_bind_ok] at h
      simp only [except_pure_eq, Except.ok.injEq, Prod.mk.injEq] at h
      exact ⟨ev, h.1 ▸ hev, of_decide_eq_true h.2⟩
  | succ n ih =>
    intro low high g h
    cases hev : reverseCalcEV f tgr w ((low + high) / 2) with
    | error e =>
      rw [reverseDCFGo, hev, except_bind_error] at h
      exact absurd h (by simp)
    | ok ev =>
      rw [reverseDCFGo, hev, except_bind_ok] at h
      by_cases h1 : |ev - T| < 1/10000 * T
      · rw [if_pos h1] at h
        simp only [except_pure_eq, Except.ok.injEq, Prod.mk.injEq] at h
        exact ⟨ev, h.1 ▸ hev, h1⟩
      · rw [if_neg h1] at h
        by_cases h2 : ev < T
        · rw [if_pos h2] at h; exact ih _ _ _ h
        · rw [if_neg h2] at h; exact ih _ _ _ h

/-- Claim C2 (amended): whenever the bisection's relative-tolerance
test fires at an examined midpoint, calculateReverseDCF returns that
midpoint as the implied growth rate, and feeding it back into the
forward enterprise-value computation at the same WACC and schedule
reproduces the market-implied enterprise value within the 1e-4 relative
tolerance.  (The counterexample shows the claim fails without the
convergence hypothesis: an unreachable target exhausts all 50
iterations.) -/
theorem reverseDCF_leftInverse (currentPrice startingFCF sharesOutstanding
    totalDebt cash wacc terminalGrowthRate g : ℚ)
    (h : reverseDCFGo startingFCF terminalGrowthRate wacc
      (currentPrice * sharesOutstanding + totalDebt - cash) 49
      (-(20/100)) (50/100) = .ok (g, true)) :
    (∃ r, calculateReverseDCF currentPrice startingFCF sharesOutstanding totalDebt
      cash wacc terminalGrowthRate = .ok r ∧ r.impliedGrowthRate = g) ∧
    ∃ ev, reverseCalcEV startingFCF terminalGrowthRate wacc g = .ok ev ∧
      |ev - (currentPrice * sharesOutstanding + totalDebt - cash)| <
        (1/10000) * (currentPrice * sharesOutstanding + totalDebt - cash) := by
  refine ⟨?_, reverseDCFGo_converged _ _ _ _ 49 _ _ _ h⟩
  simp only [calculateReverseDCF]
  rw [h, except_bind_ok]
  split_ifs <;> exact ⟨_, rfl, rfl⟩

set_option maxRecDepth 40000 in
/-- Witness for the amended C2 at a concrete input whose bisection
converges at the first midpoint. -/
theorem reverseDCF_leftInverse_witness :
    reverseDCFGo 100 (25/1000) (9/100)
        (reverseWitnessTarget * 1 + 0 - 0) 49 (-(20/100)) (50/100) = .ok (3/20, true) ∧
    ((∃ r, calculateReverseDCF reverseWitnessTarget 100 1 0 0 (9/100) (25/1000) = .ok r ∧
        r.impliedGrowthRate = 3/20) ∧
      ∃ ev, reverseCalcEV 100 (25/1000) (9/100) (3/20) = .ok ev ∧
        |ev - (reverseWitnessTarget * 1 + 0 - 0)| <
          (1/10000) * (reverseWitnessTarget * 1 + 0 - 0)) :=
  ⟨by with_unfolding_all decide,
   reverseDCF_leftInverse reverseWitnessTarget 100 1 0 0 (9/100) (25/1000) (3/20)
     (by with_unfolding_all decide)⟩

/-- One low-moving step of the bisection at a target above the
reachable enterprise-value range. -/
theorem bisectStepLow (f tgr w T : ℚ) (n : ℕ) (low high mid : ℚ)
    (hmid : (low + high) / 2 = mid)
    (h : (reverseCalcEV f tgr w mid).map (fun ev =>
      decide (¬(|ev - T| < (1/10000) * T) ∧ ev < T)) = .ok true) :
    reverseDCFGo f tgr w T (n + 1) low high =
    reverseDCFGo f tgr w T n mid high := by
  cases hev : reverseCalcEV f tgr w mid with
  | error e => rw [hev] at h; exact absurd h (by simp [Except.map])
  | ok ev =>
    rw [hev] at h
    simp only [Except.map, Except.ok.injEq] at h
    have hp := of_decide_eq_true h
    rw [reverseDCFGo, hmid, hev, except_bind_ok, if_neg hp.1, if_pos hp.2]

/-- The final iteration of a never-converging bisection run returns the
last midpoint with the tolerance flag unset. -/
theorem bisectLast (f tgr w T : ℚ) (low high mid : ℚ)
    (hmid : (low + high) / 2 = mid)
    (h : (reverseCalcEV f tgr w mid).map (fun ev =>
      decide (¬(|ev - T| < (1/10000) * T) ∧ ev < T)) = .ok true) :
    reverseDCFGo f tgr w T 0 low high = .ok (mid, false) := by
  cases hev : reverseCalcEV f tgr w mid with
  | error e => rw [hev] at h; exact absurd h (by simp [Except.map])
  | ok ev =>
    rw [hev] at h
    simp only [Except.map, Except.ok.injEq] at h
    have hp := of_decide_eq_true h
    rw [reverseDCFGo, hmid, hev, except_bind_ok, except_pure_eq,
      decide_eq_false hp.1]

set_option maxRecDepth 40000 in
/-- Claim C2 counterexample: at price 10^9, FCF 1, one share, no debt or
cash, WACC 0.09 and terminal growth 0.025, the market-implied enterprise
value exceeds everything the bracket can produce, the bisection exhausts
all 50 iterations, and feeding the returned implied growth rate back into
the forward enterprise-value computation misses the target far outside the
1e-4 relative tolerance. -/
theorem reverseDCF_leftInverse_counterexample :
    ((calculateReverseDCF ((10:ℚ)^9) 1 1 0 0 (9/100) (25/1000)).bind (fun r =>
      (reverseCalcEV 1 (25/1000) (9/100) r.impliedGrowthRate).map (fun calculatedEV =>
        decide (|calculatedEV - ((10:ℚ)^9 * 1 + 0 - 0)| < (1/10000) * ((10:ℚ)^9 * 1 + 0 - 0))))) = .ok false := by
  have h0 : reverseDCFGo 1 (25/1000) (9/100) ((10:ℚ)^9 * 1 + 0 - 0) 49 (-(20/100)) (50/100) =
      reverseDCFGo 1 (25/1000) (9/100) ((10:ℚ)^9 * 1 + 0 - 0) 48 (3/20 : ℚ) (50/100) :=
    bisectStepLow 1 (25/1000) (9/100) ((10:ℚ)^9 * 1 + 0 - 0) 48 (-(20/100)) (50/100) (3/20 : ℚ)
      (by norm_num) (by with_unfolding_all decide)
  have h1 : reverseDCFGo 1 (25/1000) (9/100) ((10:ℚ)^9 * 1 + 0 - 0) 48 (3/20 : ℚ) (50/100) =
      reverseDCFGo 1 (25/1000) (9/100) ((10:ℚ)^9 * 1 + 0 - 0) 47 (13/40 : ℚ) (50/100) :=
    bisectStepLow 1 (25/1000) (9/100) ((10:ℚ)^9 * 1 + 0 - 0) 47 (3/20 : ℚ) (50/100) (13/40 : ℚ)
      (by norm_num) (by with_unfolding_all decide)
  have h2 : reverseDCFGo 1 (25/1000) (9/100) ((10:ℚ)^9 * 1 + 0 - 0) 47 (13/40 : ℚ) (50/100) =
      reverseDCFGo 1 (25/1000) (9/100) ((10:ℚ)^9 * 1 + 0 - 0) 46 (33/80 : ℚ) (50/100) :=
    bisectStepLow 1 (25/1000) (9/100) ((10:ℚ)^9 * 1 + 0 - 0) 46 (13/40 : ℚ) (50/100) (33/80 : ℚ)
      (by norm_num) (by with_unfolding_all decide)
  have h3 : reverseDCFGo 1 (25/1000) (9/100) ((10:ℚ)^9 * 1 + 0 - 0) 46 (33/80 : ℚ) (50/100) =
      reverseDCFGo 1 (25/1000) (9/100) ((10:ℚ)^9 * 1 + 0 - 0) 45 (73/160 : ℚ) (50/100) :=
    bisectStepLow 1 (25/1000) (9/100) ((10:ℚ)^9 * 1 + 0 - 0) 45 (33/80 : ℚ) (50/100) (73/160 : ℚ)
      (by norm_num) (by with_unfolding_all decide)
  have h4 : reverseDCFGo 1 (25/1000) (9/100) ((10:ℚ)^9 * 1 + 0 - 0) 45 (73/160 : ℚ) (50/100) =
      reverseDCFGo 1 (25/1000) (9/100) ((10:ℚ)^9 * 1 + 0 - 0) 44 (153/320 : ℚ) (50/100) :=
    bisectStepLow 1 (25/1000) (9/100) ((10:ℚ)^9 * 1 + 0 - 0) 44 (73/160 : ℚ) (50/100) (153/320 : ℚ)
      (by norm_num) (by with_unfolding_all decide)
  have h5 : reverseDCFGo 1 (25/1000) (9/100) ((10:ℚ)^9 * 1 + 0 - 0) 44 (153/320 : ℚ) (50/100) =
      reverseDCFGo 1 (25/1000) (9/100) ((10:ℚ)^9 * 1 + 0 - 0) 43 (313/640 : ℚ) (50/100) :=
    bisectStepLow 1 (25/1000) (9/100) ((10:ℚ)^9 * 1 + 0 - 0) 43 (153/320 : ℚ) (50/100) (313/640 : ℚ)
      (by norm_num) (by with_unfolding_all decide)
  have h6 : reverseDCFGo 1 (25/1000) (9/100) ((10:ℚ)^9 * 1 + 0 - 0) 43 (313/640 : ℚ) (50/100) =
      reverseDCFGo 1 (25/1000) (9/100) ((10:ℚ)^9 * 1 + 0 - 0) 42 (633/1280 : ℚ) (50/100) :=
    bisectStepLow 1 (25/1000) (9/100) ((10:ℚ)^9 * 1 + 0 - 0) 42 (313/640 : ℚ) (50/100) (633/1280 : ℚ)
      (by norm_num) (by with_unfolding_all decide)
  have h7 : reverseDCFGo 1 (25/1000) (9/100) ((10:ℚ)^9 * 1 + 0 - 0) 42 (633/1280 : ℚ) (50/100) =
      reverseDCFGo 1 (25/1000) (9/100) ((10:ℚ)^9 * 1 + 0 - 0) 41 (1273/2560 : ℚ) (50/100) :=
    bisectStepLow 1 (25/1000) (9/100) ((10:ℚ)^9 * 1 + 0 - 0) 41 (633/1280 : ℚ) (50/100) (1273/2560 : ℚ)
      (by norm_num) (by with_unfolding_all decide)
  have h8 : reverseDCFGo 1 (25/1000) (9/100) ((10:ℚ)^9 * 1 + 0 - 0) 41 (1273/2560 : ℚ) (50/100) =
      reverseDCFGo 1 (25/1000) (9/100) ((10:ℚ)^9 * 1 + 0 - 0) 40 (2553/5120 : ℚ) (50/100) :=
    bisectStepLow 1 (25/1000) (9/100) ((10:ℚ)^9 * 1 + 0 - 0) 40 (1273/2560 : ℚ) (50/100) (2553/5120 : ℚ)
      (by norm_num) (by with_unfolding_all decide)
  have h9 : reverseDCFGo 1 (25/1000) (9/100) ((10:ℚ)^9 * 1 + 0 - 0) 40 (2553/5120 : ℚ) (50/100) =
      reverseDCFGo 1 (25/1000) (9/100) ((10:ℚ)^9 * 1 + 0 - 0) 39 (5113/10240 : ℚ) (50/100) :=
    bisectStepLow 1 (25/1000) (9/100) ((10:ℚ)^9 * 1 + 0 - 0) 39 (2553/5120 : ℚ) (50/100) (5113/10240 : ℚ)
      (by norm_num) (by with_unfolding_all decide)
  have h10 : reverseDCFGo 1 (25/1000) (9/100) ((10:ℚ)^9 * 1 + 0 - 0) 39 (5113/10240 : ℚ) (50/100) =
      reverseDCFGo 1 (25/1000) (9/100) ((10:ℚ)^9 * 1 + 0 - 0) 38 (10233/20480 : ℚ) (50/100) :=
    bisectStepLow 1 (25/1000) (9/100) ((10:ℚ)^9 * 1 + 0 - 0) 38 (5113/10240 : ℚ) (50/100) (10233/20480 : ℚ)
      (by norm_num) (by with_unfolding_all decide)
  have h11 : reverseDCFGo 1 (25/1000) (9/100) ((10:ℚ)^9 * 1 + 0 - 0) 38 (10233/20480 : ℚ) (50/100) =
      reverseDCFGo 1 (25/1000) (9/100) ((10:ℚ)^9 * 1 + 0 - 0) 37 (20473/40960 : ℚ) (50/100) :=
    bisectStepLow 1 (25/1000) (9/100) ((10:ℚ)^9 * 1 + 0 - 0) 37 (10233/20480 : ℚ) (50/100) (20473/40960 : ℚ)
      (by norm_num) (by with_unfolding_all decide)
  have h12 : reverseDCFGo 1 (25/1000) (9/100) ((10:ℚ)^9 * 1 + 0 - 0) 37 (20473/40960 : ℚ) (50/100) =
      reverseDCFGo 1 (25/1000) (9/100) ((10:ℚ)^9 * 1 + 0 - 0) 36 (40953/81920 : ℚ) (50/100) :=
    bisectStepLow 1 (25/1000) (9/100) ((10:ℚ)^9 * 1 + 0 - 0) 36 (20473/40960 : ℚ) (50/100) (40953/81920 : ℚ)
      (by norm_num) (by with_unfolding_all decide)
  have h13 : reverseDCFGo 1 (25/1000) (9/100) ((10:ℚ)^9 * 1 + 0 - 0) 36 (40953/81920 : ℚ) (50/100) =
      reverseDCFGo 1 (25/1000) (9/100) ((10:ℚ)^9 * 1 + 0 - 0) 35 (81913/163840 : ℚ) (50/100) :=
    bisectStepLow 1 (25/1000) (9/100) ((10:ℚ)^9 * 1 + 0 - 0) 35 (40953/81920 : ℚ) (50/100) (81913/163840 : ℚ)
      (by norm_num) (by with_unfolding_all decide)
  have h14 : reverseDCFGo 1 (25/1000) (9/100) ((10:ℚ)^9 * 1 + 0 - 0) 35 (81913/163840 : ℚ) (50/100) =
      reverseDCFGo 1 (25/1000) (9/100) ((10:ℚ)^9 * 1 + 0 - 0) 34 (163833/327680 : ℚ) (50/100) :=
    bisectStepLow 1 (25/1000) (9/100) ((10:ℚ)^9 * 1 + 0 - 0) 34 (81913/163840 : ℚ) (50/100) (163833/327680 : ℚ)
      (by norm_num) (by with_unfolding_all decide)
  have h15 : reverseDCFGo 1 (25/1000) (9/100) ((10:ℚ)^9 * 1 + 0 - 0) 34 (163833/327680 : ℚ) (50/100) =
      reverseDCFGo 1 (25/1000) (9/100) ((10:ℚ)^9 * 1 + 0 - 0) 33 (327673/655360 : ℚ) (50/100) :=
    bisectStepLow 1 (25/1000) (9/100) ((10:ℚ)^9 * 1 + 0 - 0) 33 (163833/327680 : ℚ) (50/100) (327673/655360 : ℚ)
      (by norm_num) (by with_unfolding_all decide)
  have h16 : reverseDCFGo 1 (25/1000) (9/100) ((10:ℚ)^9 * 1 + 0 - 0) 33 (327673/655360 : ℚ) (50/100) =
      reverseDCFGo 1 (25/1000) (9/100) ((10:ℚ)^9 * 1 + 0 - 0) 32 (655353/1310720 : ℚ) (50/100) :=
    bisectStepLow 1 (25/1000) (9/100) ((10:ℚ)^9 * 1 + 0 - 0) 32 (327673/655360 : ℚ) (50/100) (655353/1310720 : ℚ)
      (by norm_num) (by with_unfolding_all decide)
  have h17 : reverseDCFGo 1 (25/1000) (9/100) ((10:ℚ)^9 * 1 + 0 - 0) 32 (655353/1310720 : ℚ) (50/100) =
      reverseDCFGo 1 (25/1000) (9/100) ((10:ℚ)^9 * 1 + 0 - 0) 31 (1310713/2621440 : ℚ) (50/100) :=
    bisectStepLow 1 (25/1000) (9/100) ((10:ℚ)^9 * 1 + 0 - 0) 31 (655353/1310720 : ℚ) (50/100) (1310713/2621440 : ℚ)
      (by norm_num) (by with_unfolding_all decide)
  have h18 : reverseDCFGo 1 (25/1000) (9/100) ((10:ℚ)^9 * 1 + 0 - 0) 31 (1310713/2621440 : ℚ) (50/100) =
      reverseDCFGo 1 (25/1000) (9/100) ((10:ℚ)^9 * 1 + 0 - 0) 30 (2621433/5242880 : ℚ) (50/100) :=
    bisectStepLow 1 (25/1000) (9/100) ((10:ℚ)^9 * 1 + 0 - 0) 30 (1310713/2621440 : ℚ) (50/100) (2621433/5242880 : ℚ)
      (by norm_num) (by with_unfolding_all decide)
  have h19 : reverseDCFGo 1 (25/1000) (9/100) ((10:ℚ)^9 * 1 + 0 - 0) 30 (2621433/5242880 : ℚ) (50/100) =
      reverseDCFGo 1 (25/1000) (9/100) ((10:ℚ)^9 * 1 + 0 - 0) 29 (5242873/10485760 : ℚ) (50/100) :=
    bisectStepLow 1 (25/1000) (9/100) ((10:ℚ)^9 * 1 + 0 - 0) 29 (2621433/5242880 : ℚ) (50/100) (5242873/10485760 : ℚ)
      (by norm_num) (by with_unfolding_all decide)
  have h20 : reverseDCFGo 1 (25/1000) (9/100) ((10:ℚ)^9 * 1 + 0 - 0) 29 (5242873/10485760 : ℚ) (50/100) =
      reverseDCFGo 1 (25/1000) (9/100) ((10:ℚ)^9 * 1 + 0 - 0) 28 (10485753/20971520 : ℚ) (50/100) :=
    bisectStepLow 1 (25/1000) (9/100) ((10:ℚ)^9 * 1 + 0 - 0) 28 (5242873/10485760 : ℚ) (50/100) (10485753/20971520 : ℚ)
      (by norm_num) (by with_unfolding_all decide)
  have h21 : reverseDCFGo 1 (25/1000) (9/100) ((10:ℚ)^9 * 1 + 0 - 0) 28 (10485753/20971520 : ℚ) (50/100) =
      reverseDCFGo 1 (25/1000) (9/100) ((10:ℚ)^9 * 1 + 0 - 0) 27 (20971513/41943040 : ℚ) (50/100) :=
    bisectStepLow 1 (25/1000) (9/100) ((10:ℚ)^9 * 1 + 0 - 0) 27 (10485753/20971520 : ℚ) (50/100) (20971513/41943040 : ℚ)
      (by norm_num) (by with_unfolding_all decide)
  have h22 : reverseDCFGo 1 (25/1000) (9/100) ((10:ℚ)^9 * 1 + 0 - 0) 27 (20971513/41943040 : ℚ) (50/100) =
      reverseDCFGo 1 (25/1000) (9/100) ((10:ℚ)^9 * 1 + 0 - 0) 26 (41943033/83886080 : ℚ) (50/100) :=
    bisectStepLow 1 (25/1000) (9/100) ((10:ℚ)^9 * 1 + 0 - 0) 26 (20971513/41943040 : ℚ) (50/100) (41943033/83886080 : ℚ)
      (by norm_num) (by with_unfolding_all decide)
  have h23 : reverseDCFGo 1 (25/1000) (9/100) ((10:ℚ)^9 * 1 + 0 - 0) 26 (41943033/83886080 : ℚ) (50/100) =
      reverseDCFGo 1 (25/1000) (9/100) ((10:ℚ)^9 * 1 + 0 - 0) 25 (83886073/167772160 : ℚ) (50/100) :=
    bisectStepLow 1 (25/1000) (9/100) ((10:ℚ)^9 * 1 + 0 - 0) 25 (41943033/83886080 : ℚ) (50/100) (83886073/167772160 : ℚ)
      (by norm_num) (by with_unfolding_all decide)
  have h24 : reverseDCFGo 1 (25/1000) (9/100) ((10:ℚ)^9 * 1 + 0 - 0) 25 (83886073/167772160 : ℚ) (50/100) =
      reverseDCFGo 1 (25/1000) (9/100) ((10:ℚ)^9 * 1 + 0 - 0) 24 (167772153/335544320 : ℚ) (50/100) :=
    bisectStepLow 1 (25/1000) (9/100) ((10:ℚ)^9 * 1 + 0 - 0) 24 (83886073/167772160 : ℚ) (50/100) (167772153/335544320 : ℚ)
      (by norm_num) (by with_unfolding_all decide)
  have h25 : reverseDCFGo 1 (25/1000) (9/100) ((10:ℚ)^9 * 1 + 0 - 0) 24 (167772153/335544320 : ℚ) (50/100) =
      reverseDCFGo 1 (25/1000) (9/100) ((10:ℚ)^9 * 1 + 0 - 0) 23 (335544313/671088640 : ℚ) (50/100) :=
    bisectStepLow 1 (25/1000) (9/100) ((10:ℚ)^9 * 1 + 0 - 0) 23 (167772153/335544320 : ℚ) (50/100) (335544313/671088640 : ℚ)
      (by norm_num) (by with_unfolding_all decide)
  have h26 : reverseDCFGo 1 (25/1000) (9/100) ((10:ℚ)^9 * 1 + 0 - 0) 23 (335544313/671088640 : ℚ) (50/100) =
      reverseDCFGo 1 (25/1000) (9/100) ((10:ℚ)^9 * 1 + 0 - 0) 22 (671088633/1342177280 : ℚ) (50/100) :=
    bisectStepLow 1 (25/1000) (9/100) ((10:ℚ)^9 * 1 + 0 - 0) 22 (335544313/671088640 : ℚ) (50/100) (671088633/1342177280 : ℚ)
      (by norm_num) (by with_unfolding_all decide)
  have h27 : reverseDCFGo 1 (25/1000) (9/100) ((10:ℚ)^9 * 1 + 0 - 0) 22 (671088633/1342177280 : ℚ) (50/100) =
      reverseDCFGo 1 (25/1000) (9/100) ((10:ℚ)^9 * 1 + 0 - 0) 21 (1342177273/2684354560 : ℚ) (50/100) :=
    bisectStepLow 1 (25/1000) (9/100) ((10:ℚ)^9 * 1 + 0 - 0) 21 (671088633/1342177280 : ℚ) (50/100) (1342177273/2684354560 : ℚ)
      (by norm_num) (by with_unfolding_all decide)
  have h28 : reverseDCFGo 1 (25/1000) (9/100) ((10:ℚ)^9 * 1 + 0 - 0) 21 (1342177273/2684354560 : ℚ) (50/100) =
      reverseDCFGo 1 (25/1000) (9/100) ((10:ℚ)^9 * 1 + 0 - 0) 20 (2684354553/5368709120 : ℚ) (50/100) :=
    bisectStepLow 1 (25/1000) (9/100) ((10:ℚ)^9 * 1 + 0 - 0) 20 (1342177273/2684354560 : ℚ) (50/100) (2684354553/5368709120 : ℚ)
      (by norm_num) (by with_unfolding_all decide)
  have h29 : reverseDCFGo 1 (25/1000) (9/100) ((10:ℚ)^9 * 1 + 0 - 0) 20 (2684354553/5368709120 : ℚ) (50/100) =
      reverseDCFGo 1 (25/1000) (9/100) ((10:ℚ)^9 * 1 + 0 - 0) 19 (5368709113/10737418240 : ℚ) (50/100) :=
    bisectStepLow 1 (25/1000) (9/100) ((10:ℚ)^9 * 1 + 0 - 0) 19 (2684354553/5368709120 : ℚ) (50/100) (5368709113/10737418240 : ℚ)
      (by norm_num) (by with_unfolding_all decide)
  have h30 : reverseDCFGo 1 (25/1000) (9/100) ((10:ℚ)^9 * 1 + 0 - 0) 19 (5368709113/10737418240 : ℚ) (50/100) =
      reverseDCFGo 1 (25/1000) (9/100) ((10:ℚ)^9 * 1 + 0 - 0) 18 (10737418233/21474836480 : ℚ) (50/100) :=
    bisectStepLow 1 (25/1000) (9/100) ((10:ℚ)^9 * 1 + 0 - 0) 18 (5368709113/10737418240 : ℚ) (50/100) (10737418233/21474836480 : ℚ)
      (by norm_num) (by with_unfolding_all decide)
  have h31 : reverseDCFGo 1 (25/1000) (9/100) ((10:ℚ)^9 * 1 + 0 - 0) 18 (10737418233/21474836480 : ℚ) (50/100) =
      reverseDCFGo 1 (25/1000) (9/100) ((10:ℚ)^9 * 1 + 0 - 0) 17 (21474836473/42949672960 : ℚ) (50/100) :=
    bisectStepLow 1 (25/1000) (9/100) ((10:ℚ)^9 * 1 + 0 - 0) 17 (10737418233/21474836480 : ℚ) (50/100) (21474836473/42949672960 : ℚ)
      (by norm_num) (by with_unfolding_all decide)
  have h32 : reverseDCFGo 1 (25/1000) (9/100) ((10:ℚ)^9 * 1 + 0 - 0) 17 (21474836473/42949672960 : ℚ) (50/100) =
      reverseDCFGo 1 (25/1000) (9/100) ((10:ℚ)^9 * 1 + 0 - 0) 16 (42949672953/85899345920 : ℚ) (50/100) :=
    bisectStepLow 1 (25/1000) (9/100) ((10:ℚ)^9 * 1 + 0 - 0) 16 (21474836473/42949672960 : ℚ) (50/100) (42949672953/85899345920 : ℚ)
      (by norm_num) (by with_unfolding_all decide)
  have h33 : reverseDCFGo 1 (25/1000) (9/100) ((10:ℚ)^9 * 1 + 0 - 0) 16 (42949672953/85899345920 : ℚ) (50/100) =
      reverseDCFGo 1 (25/1000) (9/100) ((10:ℚ)^9 * 1 + 0 - 0) 15 (85899345913/171798691840 : ℚ) (50/100) :=
    bisectStepLow 1 (25/1000) (9/100) ((10:ℚ)^9 * 1 + 0 - 0) 15 (42949672953/85899345920 : ℚ) (50/100) (85899345913/171798691840 : ℚ)
      (by norm_num) (by with_unfolding_all decide)
  have h34 : reverseDCFGo 1 (25/1000) (9/100) ((10:ℚ)^9 * 1 + 0 - 0) 15 (85899345913/171798691840 : ℚ) (50/100) =
      reverseDCFGo 1 (25/1000) (9/100) ((10:ℚ)^9 * 1 + 0 - 0) 14 (171798691833/343597383680 : ℚ) (50/100) :=
    bisectStepLow 1 (25/1000) (9/100) ((10:ℚ)^9 * 1 + 0 - 0) 14 (85899345913/171798691840 : ℚ) (50/100) (171798691833/343597383680 : ℚ)
      (by norm_num) (by with_unfolding_all decide)
  have h35 : reverseDCFGo 1 (25/1000) (9/100) ((10:ℚ)^9 * 1 + 0 - 0) 14 (171798691833/343597383680 : ℚ) (50/100) =
      reverseDCFGo 1 (25/1000) (9/100) ((10:ℚ)^9 * 1 + 0 - 0) 13 (343597383673/687194767360 : ℚ) (50/100) :=
    bisectStepLow 1 (25/1000) (9/100) ((10:ℚ)^9 * 1 + 0 - 0) 13 (171798691833/343597383680 : ℚ) (50/100) (343597383673/687194767360 : ℚ)
      (by norm_num) (by with_unfolding_all decide)
  have h36 : reverseDCFGo 1 (25/1000) (9/100) ((10:ℚ)^9 * 1 + 0 - 0) 13 (343597383673/687194767360 : ℚ) (50/100) =
      reverseDCFGo 1 (25/1000) (9/100) ((10:ℚ)^9 * 1 + 0 - 0) 12 (687194767353/1374389534720 : ℚ) (50/100) :=
    bisectStepLow 1 (25/1000) (9/100) ((10:ℚ)^9 * 1 + 0 - 0) 12 (343597383673/687194767360 : ℚ) (50/100) (687194767353/1374389534720 : ℚ)
      (by norm_num) (by with_unfolding_all decide)
  have h37 : reverseDCFGo 1 (25/1000) (9/100) ((10:ℚ)^9 * 1 + 0 - 0) 12 (687194767353/1374389534720 : ℚ) (50/100) =
      reverseDCFGo 1 (25/1000) (9/100) ((10:ℚ)^9 * 1 + 0 - 0) 11 (1374389534713/2748779069440 : ℚ) (50/100) :=
    bisectStepLow 1 (25/1000) (9/100) ((10:ℚ)^9 * 1 + 0 - 0) 11 (687194767353/1374389534720 : ℚ) (50/100) (1374389534713/2748779069440 : ℚ)
      (by norm_num) (by with_unfolding_all decide)
  have h38 : reverseDCFGo 1 (25/1000) (9/100) ((10:ℚ)^9 * 1 + 0 - 0) 11 (1374389534713/2748779069440 : ℚ) (50/100) =
      reverseDCFGo 1 (25/1000) (9/100) ((10:ℚ)^9 * 1 + 0 - 0) 10 (2748779069433/5497558138880 : ℚ) (50/100) :=
    bisectStepLow 1 (25/1000) (9/100) ((10:ℚ)^9 * 1 + 0 - 0) 10 (1374389534713/2748779069440 : ℚ) (50/100) (2748779069433/5497558138880 : ℚ)
      (by norm_num) (by with_unfolding_all decide)
  have h39 : reverseDCFGo 1 (25/1000) (9/100) ((10:ℚ)^9 * 1 + 0 - 0) 10 (2748779069433/5497558138880 : ℚ) (50/100) =
      reverseDCFGo 1 (25/1000) (9/100) ((10:ℚ)^9 * 1 + 0 - 0) 9 (5497558138873/10995116277760 : ℚ) (50/100) :=
    bisectStepLow 1 (25/1000) (9/100) ((10:ℚ)^9 * 1 + 0 - 0) 9 (2748779069433/5497558138880 : ℚ) (50/100) (5497558138873/10995116277760 : ℚ)
      (by norm_num) (by with_unfolding_all decide)
  have h40 : reverseDCFGo 1 (25/1000) (9/100) ((10:ℚ)^9 * 1 + 0 - 0) 9 (5497558138873/10995116277760 : ℚ) (50/100) =
      reverseDCFGo 1 (25/1000) (9/100) ((10:ℚ)^9 * 1 + 0 - 0) 8 (10995116277753/21990232555520 : ℚ) (50/100) :=
    bisectStepLow 1 (25/1000) (9/100) ((10:ℚ)^9 * 1 + 0 - 0) 8 (5497558138873/10995116277760 : ℚ) (50/100) (10995116277753/21990232555520 : ℚ)
      (by norm_num) (by with_unfolding_all decide)
  have h41 : reverseDCFGo 1 (25/1000) (9/100) ((10:ℚ)^9 * 1 + 0 - 0) 8 (10995116277753/21990232555520 : ℚ) (50/100) =
      reverseDCFGo 1 (25/1000) (9/100) ((10:ℚ)^9 * 1 + 0 - 0) 7 (21990232555513/43980465111040 : ℚ) (50/100) :=
    bisectStepLow 1 (25/1000) (9/100) ((10:ℚ)^9 * 1 + 0 - 0) 7 (10995116277753/21990232555520 : ℚ) (50/100) (21990232555513/43980465111040 : ℚ)
      (by norm_num) (by with_unfolding_all decide)
  have h42 : reverseDCFGo 1 (25/1000) (9/100) ((10:ℚ)^9 * 1 + 0 - 0) 7 (21990232555513/43980465111040 : ℚ) (50/100) =
      reverseDCFGo 1 (25/1000) (9/100) ((10:ℚ)^9 * 1 + 0 - 0) 6 (43980465111033/87960930222080 : ℚ) (50/100) :=
    bisectStepLow 1 (25/1000) (9/100) ((10:ℚ)^9 * 1 + 0 - 0) 6 (21990232555513/43980465111040 : ℚ) (50/100) (43980465111033/87960930222080 : ℚ)
      (by norm_num) (by with_unfolding_all decide)
  have h43 : reverseDCFGo 1 (25/1000) (9/100) ((10:ℚ)^9 * 1 + 0 - 0) 6 (43980465111033/87960930222080 : ℚ) (50/100) =
      reverseDCFGo 1 (25/1000) (9/100) ((10:ℚ)^9 * 1 + 0 - 0) 5 (87960930222073/175921860444160 : ℚ) (50/100) :=
    bisectStepLow 1 (25/1000) (9/100) ((10:ℚ)^9 * 1 + 0 - 0) 5 (43980465111033/87960930222080 : ℚ) (50/100) (87960930222073/175921860444160 : ℚ)
      (by norm_num) (by with_unfolding_all decide)
  have h44 : reverseDCFGo 1 (25/1000) (9/100) ((10:ℚ)^9 * 1 + 0 - 0) 5 (87960930222073/175921860444160 : ℚ) (50/100) =
      reverseDCFGo 1 (25/1000) (9/100) ((10:ℚ)^9 * 1 + 0 - 0) 4 (175921860444153/351843720888320 : ℚ) (50/100) :=
    bisectStepLow 1 (25/1000) (9/100) ((10:ℚ)^9 * 1 + 0 - 0) 4 (87960930222073/175921860444160 : ℚ) (50/100) (175921860444153/351843720888320 : ℚ)
      (by norm_num) (by with_unfolding_all decide)
  have h45 : reverseDCFGo 1 (25/1000) (9/100) ((10:ℚ)^9 * 1 + 0 - 0) 4 (175921860444153/351843720888320 : ℚ) (50/100) =
      reverseDCFGo 1 (25/1000) (9/100) ((10:ℚ)^9 * 1 + 0 - 0) 3 (351843720888313/703687441776640 : ℚ) (50/100) :=
    bisectStepLow 1 (25/1000) (9/100) ((10:ℚ)^9 * 1 + 0 - 0) 3 (175921860444153/351843720888320 : ℚ) (50/100) (351843720888313/703687441776640 : ℚ)
      (by norm_num) (by with_unfolding_all decide)
  have h46 : reverseDCFGo 1 (25/1000) (9/100) ((10:ℚ)^9 * 1 + 0 - 0) 3 (351843720888313/703687441776640 : ℚ) (50/100) =
      reverseDCFGo 1 (25/1000) (9/100) ((10:ℚ)^9 * 1 + 0 - 0) 2 (703687441776633/1407374883553280 : ℚ) (50/100) :=
    bisectStepLow 1 (25/1000) (9/100) ((10:ℚ)^9 * 1 + 0 - 0) 2 (351843720888313/703687441776640 : ℚ) (50/100) (703687441776633/1407374883553280 : ℚ)
      (by norm_num) (by with_unfolding_all decide)
  have h47 : reverseDCFGo 1 (25/1000) (9/100) ((10:ℚ)^9 * 1 + 0 - 0) 2 (703687441776633/1407374883553280 : ℚ) (50/100) =
      reverseDCFGo 1 (25/1000) (9/100) ((10:ℚ)^9 * 1 + 0 - 0) 1 (1407374883553273/2814749767106560 : ℚ) (50/100) :=
    bisectStepLow 1 (25/1000) (9/100) ((10:ℚ)^9 * 1 + 0 - 0) 1 (703687441776633/1407374883553280 : ℚ) (50/100) (1407374883553273/2814749767106560 : ℚ)
      (by norm_num) (by with_unfolding_all decide)
  have h48 : reverseDCFGo 1 (25/1000) (9/100) ((10:ℚ)^9 * 1 + 0 - 0) 1 (1407374883553273/2814749767106560 : ℚ) (50/100) =
      reverseDCFGo 1 (25/1000) (9/100) ((10:ℚ)^9 * 1 + 0 - 0) 0 (2814749767106553/5629499534213120 : ℚ) (50/100) :=
    bisectStepLow 1 (25/1000) (9/100) ((10:ℚ)^9 * 1 + 0 - 0) 0 (1407374883553273/2814749767106560 : ℚ) (50/100) (2814749767106553/5629499534213120 : ℚ)
      (by norm_num) (by with_unfolding_all decide)
  have h49 : reverseDCFGo 1 (25/1000) (9/100) ((10:ℚ)^9 * 1 + 0 - 0) 0 (2814749767106553/5629499534213120 : ℚ) (50/100) = .ok ((5629499534213113/11258999068426240 : ℚ), false) :=
    bisectLast 1 (25/1000) (9/100) ((10:ℚ)^9 * 1 + 0 - 0) (2814749767106553/5629499534213120 : ℚ) (50/100) (5629499534213113/11258999068426240 : ℚ)
      (by norm_num) (by with_unfolding_all decide)
  simp only [calculateReverseDCF]
  rw [h0, h1, h2, h3, h4, h5, h6, h7, h8, h9, h10, h11, h12, h13, h14, h15, h16, h17, h18, h19, h20, h21, h22, h23, h24, h25, h26, h27, h28, h29, h30, h31, h32, h33, h34, h35, h36, h37, h38, h39, h40, h41, h42, h43, h44, h45, h46, h47, h48, h49, except_bind_ok]
  with_unfolding_all decide


theorem rsiAvgGain_nonneg (prices : List ℚ) (period : ℕ) :
    0 ≤ rsiAvgGain prices period := by
  unfold rsiAvgGain
  apply div_nonneg _ (by positivity)
  apply List.sum_nonneg
  intro x hx
  obtain ⟨c, -, rfl⟩ := List.mem_map.mp hx
  split <;> simp_all

theorem rsiAvgLoss_nonneg (prices : List ℚ) (period : ℕ) :
    0 ≤ rsiAvgLoss prices period := by
  unfold rsiAvgLoss
  apply div_nonneg _ (by positivity)
  apply List.sum_nonneg
  intro x hx
  obtain ⟨c, -, rfl⟩ := List.mem_map.mp hx
  split
  · simp
  · positivity

/-- Claim C6 (amended): RSI over period 14 always lies in the interval
from 0 to 100; it is 50 when fewer than 15 points exist; with enough
data it equals 100 exactly when the average loss is zero — including
the flat series whose average gain is also zero, which refutes the
claimed requirement that the average gain be positive. -/
theorem calculateRSI_spec (prices : List ℚ) :
    (0 ≤ calculateRSI prices 14 ∧ calculateRSI prices 14 ≤ 100) ∧
    (prices.length < 15 → calculateRSI prices 14 = 50) ∧
    (15 ≤ prices.length → (calculateRSI prices 14 = 100 ↔ rsiAvgLoss prices 14 = 0)) := by
  have hg := rsiAvgGain_nonneg prices 14
  have hl := rsiAvgLoss_nonneg prices 14
  refine ⟨?_, ?_, ?_⟩
  · unfold calculateRSI
    split
    · norm_num
    · simp only []
      split
      · norm_num
      · rename_i hne
        have hlpos : 0 < rsiAvgLoss prices 14 := lt_of_le_of_ne hl (Ne.symm hne)
        have hrs : 0 ≤ rsiAvgGain prices 14 / rsiAvgLoss prices 14 := div_nonneg hg hl
        have h1rs : (0:ℚ) < 1 + rsiAvgGain prices 14 / rsiAvgLoss prices 14 := by linarith
        have hdivpos : (0:ℚ) < 100 / (1 + rsiAvgGain prices 14 / rsiAvgLoss prices 14) :=
          div_pos (by norm_num) h1rs
        have hdivle : 100 / (1 + rsiAvgGain prices 14 / rsiAvgLoss prices 14) ≤ 100 := by
          rw [div_le_iff₀ h1rs]; nlinarith
        constructor <;> linarith
  · intro h
    unfold calculateRSI
    rw [if_pos (by omega)]
  · intro h
    unfold calculateRSI
    rw [if_neg (by omega)]
    simp only []
    split
    · rename_i h0; simpa using h0
    · rename_i hne
      have hlpos : 0 < rsiAvgLoss prices 14 := lt_of_le_of_ne hl (Ne.symm hne)
      have h1rs : (0:ℚ) < 1 + rsiAvgGain prices 14 / rsiAvgLoss prices 14 := by
        have := div_nonneg hg hl; linarith
      have hdivpos : (0:ℚ) < 100 / (1 + rsiAvgGain prices 14 / rsiAvgLoss prices 14) :=
        div_pos (by norm_num) h1rs
      constructor
      · intro heq; linarith
      · intro h0; exact absurd h0 hne

/-- Witness for C6 at a concrete short series. -/
theorem calculateRSI_spec_witness :
    (List.replicate 3 (1:ℚ)).length < 15 ∧
    calculateRSI (List.replicate 3 (1:ℚ)) 14 = 50 :=
  ⟨by norm_num, (calculateRSI_spec (List.replicate 3 (1:ℚ))).2.1 (by norm_num)⟩

/-- Claim C6 counterexample: the flat 15-point series has average loss
zero and average gain zero, yet calculateRSI returns 100 — the claimed
equivalence requiring a positive average gain fails. -/
theorem calculateRSI_flat_counterexample :
    calculateRSI (List.replicate 15 (1:ℚ)) 14 = 100 ∧
    rsiAvgGain (List.replicate 15 (1:ℚ)) 14 = 0 ∧
    rsiAvgLoss (List.replicate 15 (1:ℚ)) 14 = 0 := by
  with_unfolding_all decide

/-- Claim C9: a price series of exactly 26 points passes the length
guard but leaves the trailing MACD-line sample set empty, so the signal
is an average over zero samples (NaN in the source, none here) and the
histogram is NaN as well; any series below 26 points returns all
zeros. -/
theorem calculateMACD_boundary (prices : List ℚ) :
    (prices.length = 26 → (calculateMACD prices).signal = none ∧
      (calculateMACD prices).histogram = none) ∧
    (prices.length < 26 → calculateMACD prices = ⟨0, some 0, some 0⟩) := by
  constructor
  · intro h
    unfold calculateMACD
    rw [if_neg (by omega)]
    simp [h]
  · intro h
    unfold calculateMACD
    rw [if_pos h]

/-- Witness for C9 at concrete series of lengths 26 and 5. -/
theorem calculateMACD_boundary_witness :
    ((calculateMACD (List.replicate 26 (1:ℚ))).signal = none ∧
      (calculateMACD (List.replicate 26 (1:ℚ))).histogram = none) ∧
    calculateMACD (List.replicate 5 (2:ℚ)) = ⟨0, some 0, some 0⟩ :=
  ⟨(calculateMACD_boundary (List.replicate 26 (1:ℚ))).1 (by norm_num),
   (calculateMACD_boundary (List.replicate 5 (2:ℚ))).2 (by norm_num)⟩

/-! ### Score bound lemmas -/

theorem round_le_100 {x : ℚ} (h : x ≤ 100) : round x ≤ 100 := by
  rw [round_eq]
  have : ⌊x + 1/2⌋ < (101 : ℤ) := Int.floor_lt.mpr (by push_cast; linarith)
  omega

theorem round_nonneg {x : ℚ} (h : 0 ≤ x) : 0 ≤ round x := by
  rw [round_eq]
  exact Int.le_floor.mpr (by push_cast; linarith)

theorem sub_abs_mul_le (x : ℚ) : 100 - |x| * 100 ≤ 100 := by
  nlinarith [abs_nonneg x]

theorem scoreTrend_bounds (t : Trend) :
    0 ≤ (scoreTrend t).score ∧ (scoreTrend t).score ≤ 100 := by
  cases t <;> exact ⟨by norm_num [scoreTrend], by norm_num [scoreTrend]⟩

theorem scoreRSI_bounds (r : ℚ) :
    0 ≤ (scoreRSI r).score ∧ (scoreRSI r).score ≤ 100 := by
  unfold scoreRSI; split_ifs <;> norm_num

theorem scoreMACD_bounds (m : MACDValue) :
    0 ≤ (scoreMACD m).score ∧ (scoreMACD m).score ≤ 100 := by
  unfold scoreMACD; split_ifs <;> norm_num

theorem scorePriceVsSMA_bounds (p : ℚ) :
    0 ≤ (scorePriceVsSMA p).score ∧ (scorePriceVsSMA p).score ≤ 100 := by
  unfold scorePriceVsSMA; split_ifs <;> norm_num

theorem technicalScore_bounds (indicators : TechnicalIndicators) :
    0 ≤ (calculateTechnicalScore indicators).score ∧
    (calculateTechnicalScore indicators).score ≤ 100 := by
  obtain ⟨h1a, h1b⟩ := scoreTrend_bounds indicators.trendDirection
  obtain ⟨h2a, h2b⟩ := scoreRSI_bounds indicators.rsi
  obtain ⟨h3a, h3b⟩ := scoreMACD_bounds indicators.macd
  obtain ⟨h4a, h4b⟩ := scorePriceVsSMA_bounds indicators.priceVsSma50
  obtain ⟨h5a, h5b⟩ := scorePriceVsSMA_bounds indicators.priceVsSma200
  unfold calculateTechnicalScore
  simp only [List.zip_cons_cons, List.zip_nil_right, List.foldl_cons, List.foldl_nil]
  constructor
  · apply round_nonneg
    rw [le_div_iff₀ (by norm_num)]
    linarith
  · apply round_le_100
    rw [div_le_iff₀ (by norm_num)]
    linarith

theorem scoreROIC_bounds (r : ℚ) :
    0 ≤ (scoreROIC r).score ∧ (scoreROIC r).score ≤ 100 := by
  unfold scoreROIC; split_ifs <;> norm_num

theorem scoreRevenueGrowth_bounds (g : ℚ) :
    0 ≤ (scoreRevenueGrowth g).score ∧ (scoreRevenueGrowth g).score ≤ 100 := by
  unfold scoreRevenueGrowth; split_ifs <;> norm_num

theorem scoreDebtManagement_bounds (d : ℚ) :
    0 ≤ (scoreDebtManagement d).score ∧ (scoreDebtManagement d).score ≤ 100 := by
  unfold scoreDebtManagement; split_ifs <;> norm_num

theorem scoreDilution_bounds (d : ℚ) :
    0 ≤ (scoreDilution d).score ∧ (scoreDilution d).score ≤ 100 := by
  unfold scoreDilution; split_ifs <;> norm_num

theorem growthConsistency_bounds (sqrtA : ℚ → ℚ) (values : List ℚ) :
    0 ≤ calculateGrowthConsistency sqrtA values ∧
    calculateGrowthConsistency sqrtA values ≤ 100 := by
  unfold calculateGrowthConsistency
  split
  · norm_num
  · simp only []
    split
    · norm_num
    · split
      · norm_num
      · constructor
        · exact le_max_left 0 _
        · exact max_le (by norm_num) (sub_abs_mul_le _)

/-- The net margin the extraction reads: the netIncomeMargin of the
most recent income statement after the descending-by-date sort. -/
def latestNetMargin (financials : FinancialStatements) : ℚ :=
  ((sortByDateDesc (fun i => i.date) financials.income).getD 0 defIncome).netIncomeMargin

theorem fundamentalScore_bounds (sqrtA : ℚ → ℚ) (powA : ℚ → ℚ → ℚ)
    (financials : FinancialStatements) :
    (calculateFundamentalScore sqrtA powA financials).score ≤ 100 ∧
    (0 ≤ latestNetMargin financials →
      0 ≤ (calculateFundamentalScore sqrtA powA financials).score) := by
  have hm : (extractFundamentalMetrics sqrtA powA financials).netMargin = 0 ∨
      (extractFundamentalMetrics sqrtA powA financials).netMargin =
        latestNetMargin financials := by
    unfold extractFundamentalMetrics latestNetMargin
    split
    · left; rfl
    · right; rfl
  set m := extractFundamentalMetrics sqrtA powA financials with hmdef
  obtain ⟨h1a, h1b⟩ := scoreROIC_bounds m.roic
  obtain ⟨h2a, h2b⟩ := scoreRevenueGrowth_bounds m.revenueGrowth5Y
  obtain ⟨h3a, h3b⟩ := growthConsistency_bounds sqrtA
    (((List.insertionSort (fun a b => b.date ≤ a.date) financials.income).take 5).reverse.map
      (fun i => i.revenue))
  obtain ⟨h4a, h4b⟩ := scoreRevenueGrowth_bounds m.fcfGrowth5Y
  obtain ⟨h6a, h6b⟩ := scoreDebtManagement_bounds m.debtToFCF
  obtain ⟨h8a, h8b⟩ := scoreDilution_bounds m.shareDilution5Y
  have hstab : 0 ≤ m.revenueGrowthStability ∧ m.revenueGrowthStability ≤ 100 := by
    rw [hmdef]
    unfold extractFundamentalMetrics
    split
    · simp [zeroMetrics]
    · exact growthConsistency_bounds sqrtA _
  have hcons : 0 ≤ m.fcfConsistency ∧ m.fcfConsistency ≤ 100 := by
    rw [hmdef]
    unfold extractFundamentalMetrics
    split
    · simp [zeroMetrics]
    · exact growthConsistency_bounds sqrtA _
  have hmarg_le : min 100 (m.netMargin * 500) ≤ 100 := min_le_left _ _
  unfold calculateFundamentalScore
  rw [← hmdef]
  simp only [List.foldl_cons, List.foldl_nil]
  rw [if_pos (by norm_num)]
  constructor
  · apply round_le_100
    rw [div_le_iff₀ (by norm_num)]
    linarith [hstab.1, hstab.2, hcons.1, hcons.2]
  · intro hnm
    have hm0 : 0 ≤ m.netMargin := by
      rcases hm with h | h
      · rw [h]
      · rw [h]; exact hnm
    have hmarg_ge : 0 ≤ min 100 (m.netMargin * 500) :=
      le_min (by norm_num) (by nlinarith)
    apply round_nonneg
    rw [le_div_iff₀ (by norm_num)]
    linarith [hstab.1, hstab.2, hcons.1, hcons.2]

/-- Claim C7 (amended): the technical score is always an integer in the
interval from 0 to 100; the fundamental score is always an integer at
most 100, and lies in the interval from 0 to 100 whenever the most
recent net income margin is nonnegative — the margin factor min(100,
netMargin times 500) has no lower clamp, so a sufficiently negative
net margin drives the fundamental score below 0. -/
theorem scores_bounded :
    (∀ indicators : TechnicalIndicators,
      0 ≤ (calculateTechnicalScore indicators).score ∧
      (calculateTechnicalScore indicators).score ≤ 100) ∧
    (∀ (sqrtA : ℚ → ℚ) (powA : ℚ → ℚ → ℚ) (financials : FinancialStatements),
      (calculateFundamentalScore sqrtA powA financials).score ≤ 100 ∧
      (0 ≤ latestNetMargin financials →
        0 ≤ (calculateFundamentalScore sqrtA powA financials).score)) :=
  ⟨technicalScore_bounds, fundamentalScore_bounds⟩

/-- A two-year statement set whose only flaw is a deeply negative net
income margin.  Neither Math.sqrt nor Math.pow is ever invoked on it:
the revenue CAGR guard fires on the zero revenues, the FCF CAGR guard
fires on the non-positive oldest FCF, and both consistency computations
return before reaching the standard deviation, so the stand-in
functions below are never applied. -/
def badMarginFin : FinancialStatements :=
  ⟨[⟨2, 0, 0, -2, 0, 100⟩, ⟨1, 0, 0, -2, 0, 100⟩],
   [⟨2, 0, 0, 10⟩, ⟨1, 0, 0, 10⟩],
   [⟨2, 4⟩, ⟨1, 0⟩]⟩

/-- Witness for the amended C7: nonnegative margins at a concrete input
keep the fundamental score nonnegative. -/
theorem scores_bounded_witness :
    0 ≤ latestNetMargin ⟨[⟨2, 10, 1, 1/10, 2/10, 100⟩, ⟨1, 8, 1, 1/10, 2/10, 100⟩],
        [⟨2, 0, 0, 10⟩, ⟨1, 0, 0, 10⟩], [⟨2, 4⟩, ⟨1, 2⟩]⟩ ∧
    0 ≤ (calculateFundamentalScore (fun _ => 0) (fun _ _ => 0)
      ⟨[⟨2, 10, 1, 1/10, 2/10, 100⟩, ⟨1, 8, 1, 1/10, 2/10, 100⟩],
        [⟨2, 0, 0, 10⟩, ⟨1, 0, 0, 10⟩], [⟨2, 4⟩, ⟨1, 2⟩]⟩).score :=
  ⟨by with_unfolding_all decide,
   (scores_bounded.2 (fun _ => 0) (fun _ _ => 0)
     ⟨[⟨2, 10, 1, 1/10, 2/10, 100⟩, ⟨1, 8, 1, 1/10, 2/10, 100⟩],
       [⟨2, 0, 0, 10⟩, ⟨1, 0, 0, 10⟩], [⟨2, 4⟩, ⟨1, 2⟩]⟩).2
     (by with_unfolding_all decide)⟩

/-- Claim C7 counterexample: with net income margin -200 percent the
fundamental score is -79, outside the claimed interval from 0 to
100. -/
theorem fundamentalScore_negative_counterexample :
    (calculateFundamentalScore (fun _ => 0) (fun _ _ => 0) badMarginFin).score = -79 ∧
    (calculateFundamentalScore (fun _ => 0) (fun _ _ => 0) badMarginFin).score < 0 := by
  with_unfolding_all decide

end StockValuator
